import Mathlib

/-!
# PReLU tester: graph construction and output comparison

A shallow embedding of `tensorflow/lite/delegates/xnnpack/prelu_tester.cc`.

* The flatbuffer tables that `CreateTfLiteModel` hands to the builder (operator codes,
  buffers, tensors, operators, the subgraph and the model) are plain structures; the byte
  encoding performed by `builder.Finish` is not part of the embedding, which returns the
  `Model` table that is serialised.
* `int32_t` values are integers, reduced with `wrap32` wherever the source computes in
  32-bit arithmetic; `float` and `uint16_t` values are their bit patterns (naturals).
* The random generator is the sequence of its draws: `slope_rng k` is the bit pattern of the
  `k`-th value returned by `slope_rng()`.
* `std::vector<T> v(n)` with a negative `int32_t` count converts the count to a `size_t`
  beyond `max_size()` and throws; the embedding returns `none` there.
* `PreluTester::Test` is embedded with the list of the calls it makes on the two engines. The
  engines are a parameter: what each call returns in the run, and how `Invoke` transforms the
  memory. Tensor memory is one map from addresses (in `float` elements) to bit patterns.
-/

namespace tflite

/-! ## Schema tables (the fields the tester sets) -/

/-- Operator kinds used by the tester. -/
inductive BuiltinOperator where
  | PRELU
  | DEQUANTIZE
  | DENSIFY
  deriving DecidableEq, Repr

/-- Element types used by the tester. -/
inductive TensorType where
  | FLOAT32
  | FLOAT16
  deriving DecidableEq, Repr

/-- Storage format of one dimension of a sparse tensor. -/
inductive DimensionType where
  | DENSE
  | SPARSE_CSR
  deriving DecidableEq, Repr

/-- Entry of the operator-code table. -/
structure OperatorCode where
  builtin_code : BuiltinOperator
  deriving DecidableEq, Repr

/-- Entry of the buffer table: a byte blob. -/
structure Buffer where
  data : List Nat
  deriving DecidableEq, Repr

/-- Per-dimension sparsity metadata. -/
structure DimensionMetadata where
  format : DimensionType
  dense_size : Int
  deriving DecidableEq, Repr

/-- Sparsity parameters of a tensor; a null offset is `none`. -/
structure SparsityParameters where
  traversal_order : List Int
  block_map : Option (List Int)
  dim_metadata : List (Option DimensionMetadata)
  deriving DecidableEq, Repr

/-- Entry of the tensor table. -/
structure Tensor where
  shape : List Int
  type : TensorType
  buffer : Nat
  sparsity : Option SparsityParameters
  deriving DecidableEq, Repr

/-- Entry of the operator table. -/
structure Operator where
  opcode_index : Nat
  inputs : List Int
  outputs : List Int
  deriving DecidableEq, Repr

/-- The single subgraph of the model. -/
structure SubGraph where
  tensors : List Tensor
  inputs : List Int
  outputs : List Int
  operators : List Operator
  deriving DecidableEq, Repr

/-- The model table. -/
structure Model where
  version : Nat
  operator_codes : List OperatorCode
  subgraphs : List SubGraph
  description : String
  buffers : List Buffer
  deriving DecidableEq, Repr

/-- Schema constructor `CreateOperatorCode(builder, builtin_code)`. -/
def CreateOperatorCode (builtin_code : BuiltinOperator) : OperatorCode :=
  { builtin_code := builtin_code }

/-- Schema constructor `CreateBuffer(builder, data)`. -/
def CreateBuffer (data : List Nat) : Buffer :=
  { data := data }

/-- Schema constructor `CreateDimensionMetadata(builder, format, dense_size)`. -/
def CreateDimensionMetadata (format : DimensionType) (dense_size : Int) : DimensionMetadata :=
  { format := format, dense_size := dense_size }

/-- Schema constructor `CreateSparsityParameters(builder, traversal_order, block_map,
dim_metadata)`. -/
def CreateSparsityParameters (traversal_order : List Int) (block_map : Option (List Int))
    (dim_metadata : List (Option DimensionMetadata)) : SparsityParameters :=
  { traversal_order := traversal_order, block_map := block_map, dim_metadata := dim_metadata }

/-- Schema constructor `CreateTensor(builder, shape, type, buffer, name, quantization,
is_variable, sparsity)`, restricted to the fields the tester sets. -/
def CreateTensor (shape : List Int) (type : TensorType) (buffer : Nat)
    (sparsity : Option SparsityParameters) : Tensor :=
  { shape := shape, type := type, buffer := buffer, sparsity := sparsity }

/-- Modelled from the spec: the default of the `buffer` argument of `CreateTensor`, declared in
`schema_generated.h`, outside `prelu_tester.cc`. The spec has the input and output tensors
"referencing the runtime buffer" and "index 0 is conventionally the empty/runtime buffer". -/
def CreateTensor_default_buffer : Nat := 0

/-- Schema constructor `CreateOperator(builder, opcode_index, inputs, outputs)`. -/
def CreateOperator (opcode_index : Nat) (inputs outputs : List Int) : Operator :=
  { opcode_index := opcode_index, inputs := inputs, outputs := outputs }

/-- Schema constructor `CreateSubGraph(builder, tensors, inputs, outputs, operators)`. -/
def CreateSubGraph (tensors : List Tensor) (inputs outputs : List Int)
    (operators : List Operator) : SubGraph :=
  { tensors := tensors, inputs := inputs, outputs := outputs, operators := operators }

/-- Schema constructor `CreateModel(builder, version, operator_codes, subgraphs, description,
buffers)`. -/
def CreateModel (version : Nat) (operator_codes : List OperatorCode)
    (subgraphs : List SubGraph) (description : String) (buffers : List Buffer) : Model :=
  { version := version, operator_codes := operator_codes, subgraphs := subgraphs,
    description := description, buffers := buffers }

/-- Modelled from the spec: the "schema version (integer)" of the model header; the constant
`TFLITE_SCHEMA_VERSION` is declared in `version.h`, outside `prelu_tester.cc`. -/
def TFLITE_SCHEMA_VERSION : Nat := 3

namespace xnnpack

/-! ## Machine arithmetic and library helpers -/

/-- Reduction of an integer to the `int32_t` range (two's complement). -/
def wrap32 (x : Int) : Int :=
  (x + 2 ^ 31) % 2 ^ 32 - 2 ^ 31

/-- Result of `std::vector<T> v(n)` for a signed count `n`: the element count, or `none` when
the count is negative (the converted `size_t` exceeds `max_size()` and the constructor
throws). -/
def vector_size (n : Int) : Option Nat :=
  if n < 0 then none else some n.toNat

/-- The values written by `std::generate` over `n` elements: element `k` is the `k`-th call
of the generator. -/
def generate {α : Type} (n : Nat) (gen : Nat → α) : List α :=
  (List.range n).map gen

/-- The `w` bytes of an unsigned `w`-byte value, least significant first (the memory image
read through `reinterpret_cast<const uint8_t*>` on a little-endian target). -/
def bytesLE : Nat → Nat → List Nat
  | 0, _ => []
  | w + 1, v => (v % 256) :: bytesLE w (v / 256)

/-- The memory image of a vector of `w`-byte values. -/
def vector_bytes (w : Nat) (values : List Nat) : List Nat :=
  (values.map (bytesLE w)).flatten

/-! ## The tester -/

/-- Modelled from the spec: the tester's parameters (ShapeSpec and the storage-variant
flags), declared in `prelu_tester.h`, outside `prelu_tester.cc`. -/
structure PreluTester where
  InputShape : List Int
  SlopeShape : List Int
  FP16Weights : Bool
  SparseWeights : Bool
  deriving DecidableEq, Repr

/-- Modelled from the spec: `OutputShape()` of `prelu_tester.h`, outside `prelu_tester.cc`; the
spec has the "derived output shape (identical to input shape for this operator)". -/
def PreluTester.OutputShape (t : PreluTester) : List Int :=
  t.InputShape

/-- `PreluTester::ComputeSize`: `std::accumulate` with initial value `1` and
`std::multiplies<int32_t>`. -/
def ComputeSize (shape : List Int) : Int :=
  shape.foldl (fun acc d => wrap32 (acc * d)) 1

/-- One pass of the loop body of the sparse branch: `traversal_order[i] = i` and
`dim_metadata[i] = CreateDimensionMetadata(builder, DimensionType_DENSE, SlopeShape()[i])`. -/
def sparsity_loop_body (slope_shape : List Int)
    (st : List Int × List (Option DimensionMetadata)) (i : Nat) :
    List Int × List (Option DimensionMetadata) :=
  (st.1.set i (i : Int),
   st.2.set i (some (CreateDimensionMetadata DimensionType.DENSE (slope_shape.getD i 0))))

/-- The loop `for (int i = 0; i < dims_count; i++)` of the sparse branch, started on the two
freshly allocated vectors of `dims_count` elements. -/
def sparsity_loop (slope_shape : List Int) (dims_count : Nat) :
    List Int × List (Option DimensionMetadata) :=
  (List.range dims_count).foldl (sparsity_loop_body slope_shape)
    (List.replicate dims_count 0, List.replicate dims_count none)

/-- `PreluTester::CreateTfLiteModel`, up to the serialisation of the model table.
`fp16_ieee_from_fp32_value` is the conversion of the FP16 library and `slope_rng` the sequence
of slope draws. -/
def CreateTfLiteModel (t : PreluTester) (fp16_ieee_from_fp32_value : Nat → Nat)
    (slope_rng : Nat → Nat) : Option Model := do
  let operator_codes : List OperatorCode := [CreateOperatorCode BuiltinOperator.PRELU]
  let operator_codes : List OperatorCode :=
    if t.FP16Weights then
      operator_codes ++ [CreateOperatorCode BuiltinOperator.DEQUANTIZE]
    else if t.SparseWeights then
      operator_codes ++ [CreateOperatorCode BuiltinOperator.DENSIFY]
    else operator_codes
  let buffers : List Buffer := [CreateBuffer []]
  let buffers : List Buffer ←
    if t.FP16Weights then do
      let n ← vector_size (ComputeSize t.SlopeShape)
      let slope_data : List Nat := generate n (fun k => fp16_ieee_from_fp32_value (slope_rng k))
      pure (buffers ++ [CreateBuffer (vector_bytes 2 slope_data)])
    else do
      let n ← vector_size (ComputeSize t.SlopeShape)
      let slope_data : List Nat := generate n slope_rng
      pure (buffers ++ [CreateBuffer (vector_bytes 4 slope_data)])
  let tensors : List Tensor := []
  let operators : List Operator := []
  let tensors : List Tensor :=
    if t.FP16Weights then
      tensors ++ [CreateTensor t.SlopeShape TensorType.FLOAT16 1 none]
    else if t.SparseWeights then
      let dims_count : Nat := t.SlopeShape.length
      let st := sparsity_loop t.SlopeShape dims_count
      let sparsity_param := CreateSparsityParameters st.1 none st.2
      tensors ++ [CreateTensor t.SlopeShape TensorType.FLOAT32 1 (some sparsity_param)]
    else tensors
  let operators : List Operator :=
    if t.FP16Weights then
      operators ++ [CreateOperator 1 [0] [2]]
    else if t.SparseWeights then
      operators ++ [CreateOperator 1 [0] [2]]
    else operators
  let tensors := tensors ++
    [CreateTensor t.InputShape TensorType.FLOAT32 CreateTensor_default_buffer none]
  let tensors := tensors ++
    [CreateTensor t.SlopeShape TensorType.FLOAT32
      (if t.FP16Weights || t.SparseWeights then 0 else 1) none]
  let tensors := tensors ++
    [CreateTensor t.OutputShape TensorType.FLOAT32 CreateTensor_default_buffer none]
  let op_inputs : List Int := [wrap32 tensors.length - 3, wrap32 tensors.length - 2]
  let op_outputs : List Int := [wrap32 tensors.length - 1]
  let operators := operators ++ [CreateOperator 0 op_inputs op_outputs]
  let subgraph_inputs : List Int := [wrap32 (((tensors.length : Int) - 3) % 2 ^ 64)]
  let subgraph_outputs : List Int := [wrap32 tensors.length - 1]
  let subgraph := CreateSubGraph tensors subgraph_inputs subgraph_outputs operators
  pure (CreateModel TFLITE_SCHEMA_VERSION operator_codes [subgraph] "PReLU model" buffers)

/-- A binary32 bit pattern is a NaN: all exponent bits set and a non-zero fraction. -/
def float_is_nan (x : Nat) : Bool :=
  (x / 2 ^ 23) % 256 == 255 && x % 2 ^ 23 != 0

/-- The comparison `x == y` that `ASSERT_EQ` performs on two `float` values, on their
binary32 bit patterns: a NaN equals nothing, the two zeros are equal, and any other two values
are equal when their bit patterns are. -/
def float_eq (x y : Nat) : Bool :=
  !float_is_nan x && !float_is_nan y &&
    (x % 2 ^ 32 == y % 2 ^ 32 || (x % 2 ^ 31 == 0 && y % 2 ^ 31 == 0))

/-- Conversion of an `int32_t` to `size_t` (64 bits), as in the loop condition
`i < ComputeSize(OutputShape())` with `size_t i`. -/
def size_t_of (n : Int) : Nat :=
  (n % 2 ^ 64).toNat

/-- The comparison loop of `PreluTester::Test` from index `i` with `remaining` passes left:
`none` when every `ASSERT_EQ` passed, `some k` when the assertion at index `k` failed (a fatal
failure, which leaves `Test`). The two arrays are read through their index. -/
def compare_from (default_output_data xnnpack_output_data : Nat → Nat) : Nat → Nat → Option Nat
  | 0, _ => none
  | remaining + 1, i =>
    if float_eq (default_output_data i) (xnnpack_output_data i) then
      compare_from default_output_data xnnpack_output_data remaining (i + 1)
    else some i

/-- The output comparison step of `PreluTester::Test`:
`for (size_t i = 0; i < ComputeSize(OutputShape()); i++) ASSERT_EQ(...)`. -/
def compare_outputs (t : PreluTester) (default_output_data xnnpack_output_data : Nat → Nat) :
    Option Nat :=
  compare_from default_output_data xnnpack_output_data (size_t_of (ComputeSize t.OutputShape)) 0

/-! ## The run of `PreluTester::Test` -/

/-- Memory after the assignment `*p = v`; memory is indexed in `float` elements. -/
def store (heap : Nat → Nat) (p v : Nat) : Nat → Nat :=
  fun q => if q = p then v else heap q

/-- Number of elements of the iterator range `[p, p + n)` for an `int32_t` count `n`; `none`
when the count is negative (the range is not valid and the algorithm is undefined). -/
def range_size (n : Int) : Option Nat :=
  if n < 0 then none else some n.toNat

/-- `std::generate(first, first + n, gen)` with `remaining` elements left: each element is
assigned the next draw, `k` draws having been made. -/
def std_generate (gen : Nat → Nat) : Nat → Nat → Nat → (Nat → Nat) → (Nat → Nat)
  | 0, _, _, heap => heap
  | remaining + 1, first, k, heap =>
    std_generate gen remaining (first + 1) (k + 1) (store heap first (gen k))

/-- `std::copy(first, first + n, d_first)` with `remaining` elements left. -/
def std_copy : Nat → Nat → Nat → (Nat → Nat) → (Nat → Nat)
  | 0, _, _, heap => heap
  | remaining + 1, first, d_first, heap =>
    std_copy remaining (first + 1) (d_first + 1) (store heap d_first (heap first))

/-- The generation of the input values of `PreluTester::Test` into the reference engine's
input tensor: `std::generate(default_input_data, default_input_data +
ComputeSize(InputShape()), std::ref(input_rng))`. -/
def generate_inputs (t : PreluTester) (input_rng : Nat → Nat) (default_input_data : Nat)
    (heap : Nat → Nat) : Option (Nat → Nat) := do
  let n ← range_size (ComputeSize t.InputShape)
  pure (std_generate input_rng n default_input_data 0 heap)

/-- The copy of the input values of `PreluTester::Test` into the accelerated engine's input
tensor: `std::copy(default_input_data, default_input_data + ComputeSize(InputShape()),
xnnpack_input_data)`. -/
def copy_inputs (t : PreluTester) (default_input_data xnnpack_input_data : Nat)
    (heap : Nat → Nat) : Option (Nat → Nat) := do
  let n ← range_size (ComputeSize t.InputShape)
  pure (std_copy n default_input_data xnnpack_input_data heap)

/-- Status codes of the engine; the tester compares them with `kTfLiteOk` only. -/
inductive TfLiteStatus where
  | kTfLiteOk
  | kTfLiteError
  | kTfLiteDelegateError
  deriving DecidableEq, Repr

/-- Modelled from the spec: the engine behind the "single narrow capability interface — load
graph, allocate, bind input, invoke, read output"; the class `Interpreter` is declared in
`interpreter.h`, outside `prelu_tester.cc`. Each field is what the call of that name returns
in the run; `Invoke` also transforms the memory. -/
structure Interpreter where
  inputs : List Int
  outputs : List Int
  AllocateTensors : TfLiteStatus
  ModifyGraphWithDelegate : TfLiteStatus
  typed_tensor : Int → Nat
  Invoke : (Nat → Nat) → TfLiteStatus × (Nat → Nat)

/-- What `PreluTester::Test` runs against: the two random sequences, the FP16 conversion,
what the two calls of `InterpreterBuilder(model, resolver)(&interpreter)` return (the status
and the interpreter, `none` for a null pointer) and the initial memory. -/
structure TestEnv where
  fp16_ieee_from_fp32_value : Nat → Nat
  slope_rng : Nat → Nat
  input_rng : Nat → Nat
  build_delegate_interpreter : Model → TfLiteStatus × Option Interpreter
  build_default_interpreter : Model → TfLiteStatus × Option Interpreter
  heap : Nat → Nat

/-- The calls `PreluTester::Test` makes on the engines and on their memory. -/
inductive Call where
  | build_delegate (model : Model)
  | build_default (model : Model)
  | allocate_delegate
  | allocate_default
  | modify_graph_with_delegate
  | generate_input
  | copy_input
  | invoke_default
  | invoke_delegate
  | compare_outputs
  deriving DecidableEq, Repr

/-- The assertions of `PreluTester::Test`, in source order. -/
inductive Stage where
  | build_delegate
  | build_default
  | delegate_non_null
  | default_non_null
  | delegate_one_input
  | default_one_input
  | delegate_one_output
  | default_one_output
  | allocate_delegate
  | allocate_default
  | modify_graph
  | invoke_default
  | invoke_delegate
  | outputs_equal
  deriving DecidableEq, Repr

/-- How a run of `PreluTester::Test` ends: every assertion passed, the assertion of a stage
failed (a fatal failure, which returns from `Test`), or the run left defined behaviour (an
exception of `CreateTfLiteModel`, an invalid input range). -/
inductive TestOutcome where
  | passed
  | failed (stage : Stage)
  | aborted
  deriving DecidableEq, Repr

/-- `PreluTester::Test`: the calls made, in order, and the outcome. -/
def Test (t : PreluTester) (env : TestEnv) : List Call × TestOutcome :=
  match CreateTfLiteModel t env.fp16_ieee_from_fp32_value env.slope_rng with
  | none => ([], TestOutcome.aborted)
  | some model =>
    let built_delegate := env.build_delegate_interpreter model
    let calls := [Call.build_delegate model]
    if built_delegate.1 ≠ TfLiteStatus.kTfLiteOk then
      (calls, TestOutcome.failed Stage.build_delegate) else
    let built_default := env.build_default_interpreter model
    let calls := calls ++ [Call.build_default model]
    if built_default.1 ≠ TfLiteStatus.kTfLiteOk then
      (calls, TestOutcome.failed Stage.build_default) else
    match built_delegate.2 with
    | none => (calls, TestOutcome.failed Stage.delegate_non_null)
    | some delegate_interpreter =>
    match built_default.2 with
    | none => (calls, TestOutcome.failed Stage.default_non_null)
    | some default_interpreter =>
    if delegate_interpreter.inputs.length ≠ 1 then
      (calls, TestOutcome.failed Stage.delegate_one_input) else
    if default_interpreter.inputs.length ≠ 1 then
      (calls, TestOutcome.failed Stage.default_one_input) else
    if delegate_interpreter.outputs.length ≠ 1 then
      (calls, TestOutcome.failed Stage.delegate_one_output) else
    if default_interpreter.outputs.length ≠ 1 then
      (calls, TestOutcome.failed Stage.default_one_output) else
    let calls := calls ++ [Call.allocate_delegate]
    if delegate_interpreter.AllocateTensors ≠ TfLiteStatus.kTfLiteOk then
      (calls, TestOutcome.failed Stage.allocate_delegate) else
    let calls := calls ++ [Call.allocate_default]
    if default_interpreter.AllocateTensors ≠ TfLiteStatus.kTfLiteOk then
      (calls, TestOutcome.failed Stage.allocate_default) else
    let calls := calls ++ [Call.modify_graph_with_delegate]
    if delegate_interpreter.ModifyGraphWithDelegate ≠ TfLiteStatus.kTfLiteOk then
      (calls, TestOutcome.failed Stage.modify_graph) else
    let default_input_data :=
      default_interpreter.typed_tensor (default_interpreter.inputs.getD 0 0)
    let calls := calls ++ [Call.generate_input]
    match generate_inputs t env.input_rng default_input_data env.heap with
    | none => (calls, TestOutcome.aborted)
    | some heap =>
    let xnnpack_input_data :=
      delegate_interpreter.typed_tensor (delegate_interpreter.inputs.getD 0 0)
    let calls := calls ++ [Call.copy_input]
    match copy_inputs t default_input_data xnnpack_input_data heap with
    | none => (calls, TestOutcome.aborted)
    | some heap =>
    let invoked_default := default_interpreter.Invoke heap
    let calls := calls ++ [Call.invoke_default]
    if invoked_default.1 ≠ TfLiteStatus.kTfLiteOk then
      (calls, TestOutcome.failed Stage.invoke_default) else
    let invoked_delegate := delegate_interpreter.Invoke invoked_default.2
    let calls := calls ++ [Call.invoke_delegate]
    if invoked_delegate.1 ≠ TfLiteStatus.kTfLiteOk then
      (calls, TestOutcome.failed Stage.invoke_delegate) else
    let heap := invoked_delegate.2
    let default_output_data :=
      default_interpreter.typed_tensor (default_interpreter.outputs.getD 0 0)
    let xnnpack_output_data :=
      delegate_interpreter.typed_tensor (delegate_interpreter.outputs.getD 0 0)
    let calls := calls ++ [Call.compare_outputs]
    match compare_outputs t (fun i => heap (default_output_data + i))
        (fun i => heap (xnnpack_output_data + i)) with
    | some _ => (calls, TestOutcome.failed Stage.outputs_equal)
    | none => (calls, TestOutcome.passed)

/-- A stub engine for the mismatch-injection scenario: every step succeeds and `Invoke` writes
the four input values, each increased by `perturbation`, to the output tensor. -/
def stub_interpreter (input_data output_data perturbation : Nat) : Interpreter :=
  { inputs := [0]
    outputs := [2]
    AllocateTensors := TfLiteStatus.kTfLiteOk
    ModifyGraphWithDelegate := TfLiteStatus.kTfLiteOk
    typed_tensor := fun i => if i = 0 then input_data else output_data
    Invoke := fun heap =>
      (TfLiteStatus.kTfLiteOk,
       fun q =>
        if output_data ≤ q ∧ q < output_data + 4 then
          heap (input_data + (q - output_data)) + perturbation
        else heap q) }

/-- The mismatch-injection scenario: a reference stub and an accelerated stub whose output is
perturbed by `perturbation`. -/
def stub_env (perturbation : Nat) : TestEnv :=
  { fp16_ieee_from_fp32_value := fun x => x
    slope_rng := fun k => k
    input_rng := fun k => 1065353216 + k
    build_delegate_interpreter :=
      fun _ => (TfLiteStatus.kTfLiteOk, some (stub_interpreter 200 300 perturbation))
    build_default_interpreter :=
      fun _ => (TfLiteStatus.kTfLiteOk, some (stub_interpreter 0 100 0))
    heap := fun _ => 0 }

/-! ## Vocabulary of the properties -/

/-- The operator kind an operator resolves to through the operator-code table. -/
def operator_kind (m : Model) (op : Operator) : Option BuiltinOperator :=
  (m.operator_codes[op.opcode_index]?).map OperatorCode.builtin_code

/-- The tensor an `int32_t` index refers to, when it is in the tensor table. -/
def tensor_at (sg : SubGraph) (i : Int) : Option Tensor :=
  if 0 ≤ i then sg.tensors[i.toNat]? else none

/-- Every running product of `std::accumulate` over the shape is an `int32_t` value. -/
def RunningProductInRange (shape : List Int) : Prop :=
  ∀ k, k ≤ shape.length → -(2 ^ 31) ≤ (shape.take k).prod ∧ (shape.take k).prod < 2 ^ 31

/-- Index invariant: the last operator is the only PRELU operator, its inputs are the two
tensors before the last one and its output is the last tensor. -/
def TargetOperatorInvariant (m : Model) : Prop :=
  ∃ sg ops target, m.subgraphs = [sg] ∧ sg.operators = ops ++ [target] ∧
    operator_kind m target = some BuiltinOperator.PRELU ∧
    (∀ o ∈ ops, operator_kind m o ≠ some BuiltinOperator.PRELU) ∧
    3 ≤ sg.tensors.length ∧
    target.inputs = [(sg.tensors.length : Int) - 3, (sg.tensors.length : Int) - 2] ∧
    target.outputs = [(sg.tensors.length : Int) - 1]

/-- Well-formedness: operator indices are in the tensor table; the single subgraph input is
the FLOAT32 tensor with the input shape at position `n - 3`, which is the first input of the
last operator; the single subgraph output is tensor `n - 1`, the output of the last
operator. -/
def GraphWellFormed (t : PreluTester) (m : Model) : Prop :=
  ∃ sg tin target, m.subgraphs = [sg] ∧
    (∀ op ∈ sg.operators, ∀ i ∈ op.inputs ++ op.outputs,
      0 ≤ i ∧ i < (sg.tensors.length : Int)) ∧
    3 ≤ sg.tensors.length ∧
    sg.inputs = [(sg.tensors.length : Int) - 3] ∧
    tensor_at sg ((sg.tensors.length : Int) - 3) = some tin ∧
    tin.type = TensorType.FLOAT32 ∧ tin.shape = t.InputShape ∧
    sg.outputs = [(sg.tensors.length : Int) - 1] ∧
    sg.operators.getLast? = some target ∧
    target.inputs.head? = sg.inputs.head? ∧ target.outputs = sg.outputs

/-- Tensor and operator counts per variant, and the operator kinds in order. -/
def VariantCounts (t : PreluTester) (m : Model) : Prop :=
  ∃ sg, m.subgraphs = [sg] ∧
    sg.tensors.length = (if t.FP16Weights || t.SparseWeights then 4 else 3) ∧
    sg.operators.length = (if t.FP16Weights || t.SparseWeights then 2 else 1) ∧
    sg.operators.map (operator_kind m) =
      (if t.FP16Weights then [some BuiltinOperator.DEQUANTIZE, some BuiltinOperator.PRELU]
       else if t.SparseWeights then [some BuiltinOperator.DENSIFY, some BuiltinOperator.PRELU]
       else [some BuiltinOperator.PRELU])

/-- The slope tensor at position `n - 2`, second input of the last operator, references
buffer `dense_buffer` in the dense variant and buffer `encoded_buffer` in the two others. -/
def SlopeTensorBuffer (dense_buffer encoded_buffer : Nat) (t : PreluTester) (m : Model) :
    Prop :=
  ∃ sg target ts, m.subgraphs = [sg] ∧ sg.operators.getLast? = some target ∧
    target.inputs[1]? = some ((sg.tensors.length : Int) - 2) ∧
    tensor_at sg ((sg.tensors.length : Int) - 2) = some ts ∧
    ts.buffer = (if t.FP16Weights || t.SparseWeights then encoded_buffer else dense_buffer)

/-- Shape propagation: the last tensor has the shape of the tensor at `n - 3`, which is the
input shape; both are FLOAT32 and reference buffer 0. -/
def OutputShapeMatchesInput (t : PreluTester) (m : Model) : Prop :=
  ∃ sg tin tout, m.subgraphs = [sg] ∧
    tensor_at sg ((sg.tensors.length : Int) - 3) = some tin ∧
    sg.tensors.getLast? = some tout ∧
    tout.shape = tin.shape ∧ tout.shape = t.InputShape ∧
    tin.type = TensorType.FLOAT32 ∧ tout.type = TensorType.FLOAT32 ∧
    tin.buffer = 0 ∧ tout.buffer = 0

/-- Half-precision layout: the tensor list is [FLOAT16 slope on buffer 1, input, FLOAT32 slope,
output]; the DEQUANTIZE operator reads tensor 0 and writes one FLOAT32 tensor of the slope
shape, which is the third tensor and the second input of the PRELU operator. -/
def HalfPrecisionLayout (t : PreluTester) (m : Model) : Prop :=
  ∃ sg t0 tin texp tout aux target j, m.subgraphs = [sg] ∧
    sg.tensors = [t0, tin, texp, tout] ∧
    t0.type = TensorType.FLOAT16 ∧ t0.shape = t.SlopeShape ∧ t0.buffer = 1 ∧
    tin.shape = t.InputShape ∧ tin.type = TensorType.FLOAT32 ∧ sg.inputs = [1] ∧
    tout.shape = t.OutputShape ∧ tout.type = TensorType.FLOAT32 ∧ sg.outputs = [3] ∧
    sg.operators = [aux, target] ∧
    operator_kind m aux = some BuiltinOperator.DEQUANTIZE ∧
    operator_kind m target = some BuiltinOperator.PRELU ∧
    aux.inputs = [0] ∧ aux.outputs = [j] ∧ tensor_at sg j = some texp ∧
    texp.type = TensorType.FLOAT32 ∧ texp.shape = t.SlopeShape ∧
    target.inputs[1]? = some j

/-- Sparse-encoded layout: tensor 0 is the FLOAT32 slope on buffer 1 with the identity
traversal order and one DENSE entry per dimension, of that dimension's size; the DENSIFY
operator reads tensor 0 and writes one FLOAT32 tensor of the slope shape, which is the second
input of the PRELU operator. -/
def SparseEncodedLayout (t : PreluTester) (m : Model) : Prop :=
  ∃ sg t0 sparsity aux target j tdec, m.subgraphs = [sg] ∧
    sg.tensors.length = 4 ∧ sg.tensors[0]? = some t0 ∧
    t0.type = TensorType.FLOAT32 ∧ t0.shape = t.SlopeShape ∧ t0.buffer = 1 ∧
    t0.sparsity = some sparsity ∧
    sparsity.traversal_order = (List.range t.SlopeShape.length).map Int.ofNat ∧
    sparsity.dim_metadata.length = t.SlopeShape.length ∧
    (∀ i : Nat, sparsity.dim_metadata[i]? =
      (t.SlopeShape[i]?).map (fun d => some (DimensionMetadata.mk DimensionType.DENSE d))) ∧
    sg.operators = [aux, target] ∧
    operator_kind m aux = some BuiltinOperator.DENSIFY ∧
    operator_kind m target = some BuiltinOperator.PRELU ∧
    aux.inputs = [0] ∧ aux.outputs = [j] ∧ tensor_at sg j = some tdec ∧
    tdec.type = TensorType.FLOAT32 ∧ tdec.shape = t.SlopeShape ∧
    target.inputs[1]? = some j

/-- Dense layout: the only operator is the PRELU operator; its second input is a tensor on
buffer 1 without sparsity metadata; buffer 1 is the memory image of the
`ComputeSize(SlopeShape())` drawn `float` values, four bytes each. -/
def DenseWeightLayout (t : PreluTester) (slope_rng : Nat → Nat) (m : Model) : Prop :=
  ∃ sg target j w buf values, m.subgraphs = [sg] ∧ sg.operators = [target] ∧
    operator_kind m target = some BuiltinOperator.PRELU ∧
    target.inputs[1]? = some j ∧ tensor_at sg j = some w ∧
    w.shape = t.SlopeShape ∧ w.type = TensorType.FLOAT32 ∧
    w.buffer = 1 ∧ w.sparsity = none ∧
    m.buffers[1]? = some buf ∧
    values = generate (ComputeSize t.SlopeShape).toNat slope_rng ∧
    (values.length : Int) = ComputeSize t.SlopeShape ∧
    buf.data = vector_bytes 4 values ∧
    (buf.data.length : Int) = 4 * ComputeSize t.SlopeShape

/-- Contract of the comparison step over the indices below `ComputeSize(OutputShape())`: it
passes exactly when every pair is equal, and it fails at `k` exactly when `k` is the smallest
index whose pair differs; so any differing pair makes it fail, at or before that index. -/
def FirstMismatchReported (t : PreluTester) (default_output_data xnnpack_output_data : Nat → Nat) :
    Prop :=
  (compare_outputs t default_output_data xnnpack_output_data = none ↔
    ∀ i : Nat, (i : Int) < ComputeSize t.OutputShape →
      float_eq (default_output_data i) (xnnpack_output_data i) = true) ∧
  (∀ k : Nat, compare_outputs t default_output_data xnnpack_output_data = some k ↔
    ((k : Int) < ComputeSize t.OutputShape ∧
      float_eq (default_output_data k) (xnnpack_output_data k) = false ∧
      ∀ j : Nat, j < k → float_eq (default_output_data j) (xnnpack_output_data j) = true)) ∧
  (∀ i : Nat, (i : Int) < ComputeSize t.OutputShape →
    float_eq (default_output_data i) (xnnpack_output_data i) = false →
    ∃ k, k ≤ i ∧ compare_outputs t default_output_data xnnpack_output_data = some k)

/-- Operator-code table per variant, validity of every opcode index, and the kinds the
operators resolve to: PRELU for the last operator, the registered decode kind for the
operator before it, when there is one. -/
def OperatorCodeTable (t : PreluTester) (m : Model) : Prop :=
  m.operator_codes =
    (if t.FP16Weights then [⟨BuiltinOperator.PRELU⟩, ⟨BuiltinOperator.DEQUANTIZE⟩]
     else if t.SparseWeights then [⟨BuiltinOperator.PRELU⟩, ⟨BuiltinOperator.DENSIFY⟩]
     else [⟨BuiltinOperator.PRELU⟩]) ∧
  ∃ sg ops target, m.subgraphs = [sg] ∧ sg.operators = ops ++ [target] ∧
    (∀ op ∈ sg.operators, op.opcode_index < m.operator_codes.length) ∧
    operator_kind m target = some BuiltinOperator.PRELU ∧
    ops.length = (if t.FP16Weights || t.SparseWeights then 1 else 0) ∧
    (∀ aux ∈ ops, operator_kind m aux =
      some (if t.FP16Weights then BuiltinOperator.DEQUANTIZE else BuiltinOperator.DENSIFY))

/-- Buffer table: two entries, the empty buffer 0 and buffer 1 holding the memory image of
the `ComputeSize(SlopeShape())` slope values, two bytes each with FP16Weights and four bytes
each otherwise; every tensor's buffer index is in the table. -/
def BufferTable (t : PreluTester) (fp16_ieee_from_fp32_value slope_rng : Nat → Nat)
    (m : Model) : Prop :=
  ∃ sg b1 values, m.subgraphs = [sg] ∧ m.buffers = [⟨[]⟩, b1] ∧
    (values.length : Int) = ComputeSize t.SlopeShape ∧
    values =
      (if t.FP16Weights then
        generate (ComputeSize t.SlopeShape).toNat
          (fun k => fp16_ieee_from_fp32_value (slope_rng k))
       else generate (ComputeSize t.SlopeShape).toNat slope_rng) ∧
    b1.data = vector_bytes (if t.FP16Weights then 2 else 4) values ∧
    (b1.data.length : Int) = (if t.FP16Weights then 2 else 4) * ComputeSize t.SlopeShape ∧
    ∀ tn ∈ sg.tensors, tn.buffer < m.buffers.length

/-- Definition before use: every operator input is a subgraph input, or a tensor on the
constant buffer 1, or an output of a strictly earlier operator; no tensor is written by two
operators; the subgraph outputs are the outputs of the last operator. -/
def DefinedBeforeUse (m : Model) : Prop :=
  ∃ sg last, m.subgraphs = [sg] ∧
    (∀ (k : Nat) (op : Operator), sg.operators[k]? = some op → ∀ i ∈ op.inputs,
      i ∈ sg.inputs ∨
      (∃ tn, tensor_at sg i = some tn ∧ tn.buffer = 1) ∨
      (∃ (j : Nat) (earlier : Operator), j < k ∧ sg.operators[j]? = some earlier ∧
        i ∈ earlier.outputs)) ∧
    (sg.operators.map Operator.outputs).flatten.Nodup ∧
    sg.operators.getLast? = some last ∧ sg.outputs = last.outputs

/-- Absence of any trace of the sparse branch: no DENSIFY opcode, no sparsity metadata, two
operators of which exactly one is not the PRELU operator. -/
def NoSparseTrace (m : Model) : Prop :=
  ∃ sg, m.subgraphs = [sg] ∧
    (∀ code ∈ m.operator_codes, code.builtin_code ≠ BuiltinOperator.DENSIFY) ∧
    (∀ tn ∈ sg.tensors, tn.sparsity = none) ∧
    sg.operators.length = 2 ∧
    (sg.operators.filter
      (fun op => decide (operator_kind m op ≠ some BuiltinOperator.PRELU))).length = 1

/-- Two models agree on everything but the contents of buffer 1, which has the same length
in both. -/
def SameStructure (m1 m2 : Model) : Prop :=
  m1.version = m2.version ∧ m1.operator_codes = m2.operator_codes ∧
  m1.subgraphs = m2.subgraphs ∧ m1.description = m2.description ∧
  ∃ b1 b2, m1.buffers = [⟨[]⟩, b1] ∧ m2.buffers = [⟨[]⟩, b2] ∧
    b1.data.length = b2.data.length

/-- Input step contract, with `mid` the memory after the generation and `fin` the memory after
the copy: the reference input holds the draws in order and nothing else was written by the
generation; after the copy the accelerated input equals the reference input element by
element, the reference input is unchanged, and nothing but the accelerated input was written
by the copy. -/
def InputsIdentical (t : PreluTester) (input_rng : Nat → Nat)
    (default_input_data xnnpack_input_data : Nat) (heap mid fin : Nat → Nat) : Prop :=
  (∀ i : Nat, (i : Int) < ComputeSize t.InputShape →
    mid (default_input_data + i) = input_rng i) ∧
  (∀ q : Nat, (∀ i : Nat, (i : Int) < ComputeSize t.InputShape → q ≠ default_input_data + i) →
    mid q = heap q) ∧
  (∀ i : Nat, (i : Int) < ComputeSize t.InputShape →
    fin (xnnpack_input_data + i) = fin (default_input_data + i)) ∧
  (∀ i : Nat, (i : Int) < ComputeSize t.InputShape →
    fin (default_input_data + i) = mid (default_input_data + i)) ∧
  (∀ q : Nat, (∀ i : Nat, (i : Int) < ComputeSize t.InputShape → q ≠ xnnpack_input_data + i) →
    fin q = mid q)

/-- The stages of a run in the order of the claim: both engines built from the model, one
input and one output each, both allocated, the delegate attached, the inputs written, both
engines invoked, the outputs compared. -/
def full_calls (model : Model) : List Call :=
  [Call.build_delegate model, Call.build_default model, Call.allocate_delegate,
    Call.allocate_default, Call.modify_graph_with_delegate, Call.generate_input,
    Call.copy_input, Call.invoke_default, Call.invoke_delegate, Call.compare_outputs]

/-- The assertions in the order in which a run reaches them. -/
def stages : List Stage :=
  [Stage.build_delegate, Stage.build_default, Stage.delegate_non_null, Stage.default_non_null,
    Stage.delegate_one_input, Stage.default_one_input, Stage.delegate_one_output,
    Stage.default_one_output, Stage.allocate_delegate, Stage.allocate_default,
    Stage.modify_graph, Stage.invoke_default, Stage.invoke_delegate, Stage.outputs_equal]

/-- Number of calls of `full_calls` made when the assertion of a stage is evaluated. -/
def stage_calls : Stage → Nat
  | Stage.build_delegate => 1
  | Stage.build_default => 2
  | Stage.delegate_non_null => 2
  | Stage.default_non_null => 2
  | Stage.delegate_one_input => 2
  | Stage.default_one_input => 2
  | Stage.delegate_one_output => 2
  | Stage.default_one_output => 2
  | Stage.allocate_delegate => 3
  | Stage.allocate_default => 4
  | Stage.modify_graph => 5
  | Stage.invoke_default => 8
  | Stage.invoke_delegate => 9
  | Stage.outputs_equal => 10

/-- The memory both engines are invoked on: the initial memory after the generation of the
inputs into the reference input and their copy into the accelerated input. -/
def heap_after_inputs (t : PreluTester) (env : TestEnv)
    (delegate_interpreter default_interpreter : Interpreter) : Nat → Nat :=
  std_copy (ComputeSize t.InputShape).toNat
    (default_interpreter.typed_tensor (default_interpreter.inputs.getD 0 0))
    (delegate_interpreter.typed_tensor (delegate_interpreter.inputs.getD 0 0))
    (std_generate env.input_rng (ComputeSize t.InputShape).toNat
      (default_interpreter.typed_tensor (default_interpreter.inputs.getD 0 0)) 0 env.heap)

/-- Whether a stage succeeds in the run on `model`: the status is `kTfLiteOk`, the pointer is
not null, the count is one, the outputs compare equal. A stage that needs an engine that is
null does not succeed. -/
def stage_ok (t : PreluTester) (env : TestEnv) (model : Model) : Stage → Bool
  | Stage.build_delegate =>
    decide ((env.build_delegate_interpreter model).1 = TfLiteStatus.kTfLiteOk)
  | Stage.build_default =>
    decide ((env.build_default_interpreter model).1 = TfLiteStatus.kTfLiteOk)
  | Stage.delegate_non_null => (env.build_delegate_interpreter model).2.isSome
  | Stage.default_non_null => (env.build_default_interpreter model).2.isSome
  | Stage.delegate_one_input =>
    match (env.build_delegate_interpreter model).2 with
    | some delegate_interpreter => decide (delegate_interpreter.inputs.length = 1)
    | none => false
  | Stage.default_one_input =>
    match (env.build_default_interpreter model).2 with
    | some default_interpreter => decide (default_interpreter.inputs.length = 1)
    | none => false
  | Stage.delegate_one_output =>
    match (env.build_delegate_interpreter model).2 with
    | some delegate_interpreter => decide (delegate_interpreter.outputs.length = 1)
    | none => false
  | Stage.default_one_output =>
    match (env.build_default_interpreter model).2 with
    | some default_interpreter => decide (default_interpreter.outputs.length = 1)
    | none => false
  | Stage.allocate_delegate =>
    match (env.build_delegate_interpreter model).2 with
    | some delegate_interpreter =>
      decide (delegate_interpreter.AllocateTensors = TfLiteStatus.kTfLiteOk)
    | none => false
  | Stage.allocate_default =>
    match (env.build_default_interpreter model).2 with
    | some default_interpreter =>
      decide (default_interpreter.AllocateTensors = TfLiteStatus.kTfLiteOk)
    | none => false
  | Stage.modify_graph =>
    match (env.build_delegate_interpreter model).2 with
    | some delegate_interpreter =>
      decide (delegate_interpreter.ModifyGraphWithDelegate = TfLiteStatus.kTfLiteOk)
    | none => false
  | Stage.invoke_default =>
    match (env.build_delegate_interpreter model).2, (env.build_default_interpreter model).2 with
    | some delegate_interpreter, some default_interpreter =>
      decide ((default_interpreter.Invoke
        (heap_after_inputs t env delegate_interpreter default_interpreter)).1 =
          TfLiteStatus.kTfLiteOk)
    | _, _ => false
  | Stage.invoke_delegate =>
    match (env.build_delegate_interpreter model).2, (env.build_default_interpreter model).2 with
    | some delegate_interpreter, some default_interpreter =>
      decide ((delegate_interpreter.Invoke (default_interpreter.Invoke
        (heap_after_inputs t env delegate_interpreter default_interpreter)).2).1 =
          TfLiteStatus.kTfLiteOk)
    | _, _ => false
  | Stage.outputs_equal =>
    match (env.build_delegate_interpreter model).2, (env.build_default_interpreter model).2 with
    | some delegate_interpreter, some default_interpreter =>
      (compare_outputs t
        (fun i => (delegate_interpreter.Invoke (default_interpreter.Invoke
          (heap_after_inputs t env delegate_interpreter default_interpreter)).2).2
            (default_interpreter.typed_tensor (default_interpreter.outputs.getD 0 0) + i))
        (fun i => (delegate_interpreter.Invoke (default_interpreter.Invoke
          (heap_after_inputs t env delegate_interpreter default_interpreter)).2).2
            (delegate_interpreter.typed_tensor (delegate_interpreter.outputs.getD 0 0) + i))
        ).isNone
    | _, _ => false

/-- The first stage, in order, that does not succeed. -/
def first_failure (t : PreluTester) (env : TestEnv) (model : Model) : Option Stage :=
  stages.find? (fun s => !stage_ok t env model s)

/-- Staged run, following the claim: the run passes exactly when every stage succeeds; it
otherwise fails at the first stage that does not succeed, having made the calls up to that
stage and no later one; a passing run has made all the calls in order; and when an allocation
or the attachment of the delegate does not succeed no engine is invoked. -/
def StagedRun (t : PreluTester) (env : TestEnv) (model : Model) : Prop :=
  (Test t env).2 =
    (match first_failure t env model with
     | none => TestOutcome.passed
     | some s => TestOutcome.failed s) ∧
  (Test t env).1 =
    (match first_failure t env model with
     | none => full_calls model
     | some s => (full_calls model).take (stage_calls s)) ∧
  ((Test t env).2 = TestOutcome.passed ↔ ∀ s ∈ stages, stage_ok t env model s = true) ∧
  ((Test t env).2 = TestOutcome.passed → (Test t env).1 = full_calls model) ∧
  ((stage_ok t env model Stage.allocate_delegate = false ∨
      stage_ok t env model Stage.allocate_default = false ∨
      stage_ok t env model Stage.modify_graph = false) →
    (Test t env).2 ≠ TestOutcome.passed ∧
    Call.invoke_default ∉ (Test t env).1 ∧ Call.invoke_delegate ∉ (Test t env).1)

/-! ## Shape of the built model, variant by variant -/

theorem wrap32_three : wrap32 ((3 : Nat) : Int) = 3 := by decide

theorem wrap32_four : wrap32 ((4 : Nat) : Int) = 4 := by decide

theorem vector_size_of_nonneg {n : Int} (h : 0 ≤ n) : vector_size n = some n.toNat := by
  unfold vector_size
  rw [if_neg (by omega)]

theorem vector_size_of_neg {n : Int} (h : n < 0) : vector_size n = none := by
  unfold vector_size
  rw [if_pos h]

theorem set_at_length {α : Type} (l : List α) (x y : α) (r : List α) :
    (l ++ y :: r).set l.length x = l ++ x :: r := by
  induction l with
  | nil => rfl
  | cons a l ih => simp [ih]

/-- Invariant of the sparse loop after `k` passes: the first `k` slots of both vectors are
filled, the remaining ones still hold their initial value. -/
theorem sparsity_loop_after (slope : List Int) (k : Nat) (hk : k ≤ slope.length) :
    (List.range k).foldl (sparsity_loop_body slope)
        (List.replicate slope.length 0, List.replicate slope.length none) =
      ((List.range k).map Int.ofNat ++ List.replicate (slope.length - k) 0,
       (slope.take k).map (fun d => some (DimensionMetadata.mk DimensionType.DENSE d)) ++
         List.replicate (slope.length - k) none) := by
  induction k with
  | zero => simp
  | succ k ih =>
    have hk2 : k < slope.length := hk
    rw [List.range_succ, List.foldl_append, ih (Nat.le_of_lt hk2)]
    obtain ⟨r, hr⟩ : ∃ r, slope.length - k = r + 1 := ⟨slope.length - k - 1, by omega⟩
    have hr2 : slope.length - (k + 1) = r := by omega
    have h1 : ((List.range k).map Int.ofNat).length = k := by simp
    have h2 : ((slope.take k).map
        (fun d => some (DimensionMetadata.mk DimensionType.DENSE d))).length = k := by
      simp; omega
    have h3 : slope.take (k + 1) = slope.take k ++ [slope.getD k 0] := by
      rw [List.take_succ]
      simp [List.getD, List.getElem?_eq_getElem hk2]
    rw [hr, hr2, h3]
    simp only [List.foldl_cons, List.foldl_nil, sparsity_loop_body, List.replicate_succ]
    have e1 := set_at_length ((List.range k).map Int.ofNat) (k : Int) 0 (List.replicate r 0)
    have e2 := set_at_length ((slope.take k).map
        (fun d => some (DimensionMetadata.mk DimensionType.DENSE d)))
        (some (CreateDimensionMetadata DimensionType.DENSE (slope.getD k 0))) none
        (List.replicate r none)
    rw [h1] at e1
    rw [h2] at e2
    rw [e1, e2]
    simp [CreateDimensionMetadata]

/-- Result of the sparse loop: the identity traversal order and one dense entry per
dimension. -/
theorem sparsity_loop_eq (slope : List Int) :
    sparsity_loop slope slope.length =
      ((List.range slope.length).map Int.ofNat,
       slope.map (fun d => some (DimensionMetadata.mk DimensionType.DENSE d))) := by
  unfold sparsity_loop
  rw [sparsity_loop_after slope slope.length (Nat.le_refl _)]
  simp

/-- No model is built when the slope size is negative. -/
theorem CreateTfLiteModel_of_neg (t : PreluTester) (cv rng : Nat → Nat)
    (h : ComputeSize t.SlopeShape < 0) : CreateTfLiteModel t cv rng = none := by
  obtain ⟨inp, slope, fp, sp⟩ := t
  cases fp <;> simp [CreateTfLiteModel, vector_size_of_neg h]

/-- The model built for the dense variant. -/
theorem CreateTfLiteModel_dense (inp slope : List Int) (cv rng : Nat → Nat)
    (h : 0 ≤ ComputeSize slope) :
    CreateTfLiteModel ⟨inp, slope, false, false⟩ cv rng = some
      { version := TFLITE_SCHEMA_VERSION
        operator_codes := [⟨BuiltinOperator.PRELU⟩]
        subgraphs := [
          { tensors := [⟨inp, TensorType.FLOAT32, 0, none⟩, ⟨slope, TensorType.FLOAT32, 1, none⟩,
              ⟨inp, TensorType.FLOAT32, 0, none⟩]
            inputs := [0]
            outputs := [2]
            operators := [⟨0, [0, 1], [2]⟩] }]
        description := "PReLU model"
        buffers := [⟨[]⟩, ⟨vector_bytes 4 (generate (ComputeSize slope).toNat rng)⟩] } := by
  simp [CreateTfLiteModel, vector_size_of_nonneg h, CreateModel, CreateSubGraph, CreateTensor,
    CreateOperator, CreateBuffer, CreateOperatorCode, PreluTester.OutputShape,
    CreateTensor_default_buffer, wrap32_three]
  decide

/-- The model built for the half-precision variant, whatever the sparse flag. -/
theorem CreateTfLiteModel_fp16 (inp slope : List Int) (sp : Bool) (cv rng : Nat → Nat)
    (h : 0 ≤ ComputeSize slope) :
    CreateTfLiteModel ⟨inp, slope, true, sp⟩ cv rng = some
      { version := TFLITE_SCHEMA_VERSION
        operator_codes := [⟨BuiltinOperator.PRELU⟩, ⟨BuiltinOperator.DEQUANTIZE⟩]
        subgraphs := [
          { tensors := [⟨slope, TensorType.FLOAT16, 1, none⟩, ⟨inp, TensorType.FLOAT32, 0, none⟩,
              ⟨slope, TensorType.FLOAT32, 0, none⟩, ⟨inp, TensorType.FLOAT32, 0, none⟩]
            inputs := [1]
            outputs := [3]
            operators := [⟨1, [0], [2]⟩, ⟨0, [1, 2], [3]⟩] }]
        description := "PReLU model"
        buffers := [⟨[]⟩,
          ⟨vector_bytes 2 (generate (ComputeSize slope).toNat (fun k => cv (rng k)))⟩] } := by
  simp [CreateTfLiteModel, vector_size_of_nonneg h, CreateModel, CreateSubGraph, CreateTensor,
    CreateOperator, CreateBuffer, CreateOperatorCode, PreluTester.OutputShape,
    CreateTensor_default_buffer, wrap32_four]
  decide

/-- The model built for the sparse-encoded variant. -/
theorem CreateTfLiteModel_sparse (inp slope : List Int) (cv rng : Nat → Nat)
    (h : 0 ≤ ComputeSize slope) :
    CreateTfLiteModel ⟨inp, slope, false, true⟩ cv rng = some
      { version := TFLITE_SCHEMA_VERSION
        operator_codes := [⟨BuiltinOperator.PRELU⟩, ⟨BuiltinOperator.DENSIFY⟩]
        subgraphs := [
          { tensors := [
              ⟨slope, TensorType.FLOAT32, 1, some
                { traversal_order := (List.range slope.length).map Int.ofNat
                  block_map := none
                  dim_metadata :=
                    slope.map (fun d => some (DimensionMetadata.mk DimensionType.DENSE d)) }⟩,
              ⟨inp, TensorType.FLOAT32, 0, none⟩,
              ⟨slope, TensorType.FLOAT32, 0, none⟩, ⟨inp, TensorType.FLOAT32, 0, none⟩]
            inputs := [1]
            outputs := [3]
            operators := [⟨1, [0], [2]⟩, ⟨0, [1, 2], [3]⟩] }]
        description := "PReLU model"
        buffers := [⟨[]⟩, ⟨vector_bytes 4 (generate (ComputeSize slope).toNat rng)⟩] } := by
  simp [CreateTfLiteModel, vector_size_of_nonneg h, CreateModel, CreateSubGraph, CreateTensor,
    CreateOperator, CreateBuffer, CreateOperatorCode, PreluTester.OutputShape,
    CreateTensor_default_buffer, wrap32_four, sparsity_loop_eq, CreateSparsityParameters]
  decide

/-- A model is built exactly when the slope size is not negative. -/
theorem CreateTfLiteModel_isSome_iff (t : PreluTester) (cv rng : Nat → Nat) :
    (CreateTfLiteModel t cv rng).isSome = true ↔ 0 ≤ ComputeSize t.SlopeShape := by
  constructor
  · intro hs
    by_contra hneg
    rw [CreateTfLiteModel_of_neg t cv rng (by omega)] at hs
    exact Bool.noConfusion hs
  · intro h
    obtain ⟨inp, slope, fp, sp⟩ := t
    simp only at h
    cases fp
    · cases sp
      · rw [CreateTfLiteModel_dense inp slope cv rng h]
        rfl
      · rw [CreateTfLiteModel_sparse inp slope cv rng h]
        rfl
    · rw [CreateTfLiteModel_fp16 inp slope sp cv rng h]
      rfl

/-! ## Lemmas on the helpers -/

theorem wrap32_of_int32 {x : Int} (h1 : -(2 ^ 31) ≤ x) (h2 : x < 2 ^ 31) : wrap32 x = x := by
  unfold wrap32
  omega

/-- The accumulation started at `acc` multiplies `acc` by the product of the shape as long as
no running product leaves the `int32_t` range. -/
theorem accumulate_eq_mul_prod (shape : List Int) (acc : Int)
    (h : ∀ k, k ≤ shape.length →
      -(2 ^ 31) ≤ acc * (shape.take k).prod ∧ acc * (shape.take k).prod < 2 ^ 31) :
    shape.foldl (fun a d => wrap32 (a * d)) acc = acc * shape.prod := by
  induction shape generalizing acc with
  | nil => simp
  | cons d ds ih =>
    have h1 := h 1 (by simp)
    simp only [List.take_succ_cons, List.take_zero, List.prod_cons, List.prod_nil,
      mul_one] at h1
    rw [List.foldl_cons, wrap32_of_int32 h1.1 h1.2, ih, List.prod_cons, mul_assoc]
    intro k hk
    have h2 := h (k + 1) (by simpa using hk)
    simpa [List.prod_cons, mul_assoc] using h2

theorem bytesLE_length (w v : Nat) : (bytesLE w v).length = w := by
  induction w generalizing v with
  | zero => rfl
  | succ w ih => simp [bytesLE, ih]

theorem vector_bytes_length (w : Nat) (values : List Nat) :
    (vector_bytes w values).length = w * values.length := by
  induction values with
  | nil => simp [vector_bytes]
  | cons v vs ih =>
    simp only [vector_bytes, List.map_cons, List.flatten_cons, List.length_append,
      bytesLE_length, List.length_cons] at ih ⊢
    rw [ih]
    ring

theorem generate_length {α : Type} (n : Nat) (gen : Nat → α) : (generate n gen).length = n := by
  simp [generate]

theorem size_t_of_nonneg {n : Int} (h : 0 ≤ n) (h2 : n < 2 ^ 31) : size_t_of n = n.toNat := by
  unfold size_t_of
  congr 1
  omega

/-- The loop passes exactly when every compared pair is equal. -/
theorem compare_from_eq_none (a b : Nat → Nat) (r i : Nat) :
    compare_from a b r i = none ↔ ∀ j, i ≤ j → j < i + r → float_eq (a j) (b j) = true := by
  induction r generalizing i with
  | zero =>
    simp only [compare_from, true_iff]
    intro j h1 h2
    omega
  | succ r ih =>
    unfold compare_from
    by_cases hi : float_eq (a i) (b i) = true
    · rw [if_pos hi, ih]
      constructor
      · intro h j h1 h2
        rcases Nat.eq_or_lt_of_le h1 with e | l
        · rw [← e]; exact hi
        · exact h j l (by omega)
      · intro h j h1 h2
        exact h j (by omega) (by omega)
    · rw [if_neg hi]
      constructor
      · intro e
        exact Option.noConfusion e
      · intro h
        exact absurd (h i (Nat.le_refl i) (by omega)) hi

/-- The loop fails at `k` exactly when `k` is the first index in range whose pair differs. -/
theorem compare_from_eq_some (a b : Nat → Nat) (r i k : Nat) :
    compare_from a b r i = some k ↔
      (i ≤ k ∧ k < i + r ∧ float_eq (a k) (b k) = false ∧
        ∀ j, i ≤ j → j < k → float_eq (a j) (b j) = true) := by
  induction r generalizing i with
  | zero =>
    unfold compare_from
    constructor
    · intro e
      exact Option.noConfusion e
    · rintro ⟨h1, h2, -⟩
      omega
  | succ r ih =>
    unfold compare_from
    by_cases hi : float_eq (a i) (b i) = true
    · rw [if_pos hi, ih]
      constructor
      · rintro ⟨h1, h2, h3, h4⟩
        refine ⟨by omega, by omega, h3, ?_⟩
        intro j hj1 hj2
        rcases Nat.eq_or_lt_of_le hj1 with e | l
        · rw [← e]; exact hi
        · exact h4 j l hj2
      · rintro ⟨h1, h2, h3, h4⟩
        have hne : i ≠ k := by
          intro e
          rw [e] at hi
          rw [hi] at h3
          exact Bool.noConfusion h3
        refine ⟨by omega, by omega, h3, ?_⟩
        intro j hj1 hj2
        exact h4 j (by omega) hj2
    · rw [if_neg hi]
      have hf : float_eq (a i) (b i) = false := by simpa using hi
      constructor
      · intro e
        have e2 : i = k := Option.some.inj e
        subst e2
        refine ⟨Nat.le_refl _, by omega, hf, ?_⟩
        intro j h1 h2
        omega
      · rintro ⟨h1, h2, h3, h4⟩
        rcases Nat.eq_or_lt_of_le h1 with e | l
        · rw [e]
        · exact absurd (h4 i (Nat.le_refl _) l) hi

theorem wrap32_int32 (x : Int) : -(2 ^ 31) ≤ wrap32 x ∧ wrap32 x < 2 ^ 31 := by
  unfold wrap32
  omega

theorem accumulate_int32 (shape : List Int) (acc : Int)
    (h : -(2 ^ 31) ≤ acc ∧ acc < 2 ^ 31) :
    -(2 ^ 31) ≤ shape.foldl (fun a d => wrap32 (a * d)) acc ∧
      shape.foldl (fun a d => wrap32 (a * d)) acc < 2 ^ 31 := by
  induction shape generalizing acc with
  | nil => simpa using h
  | cons d ds ih =>
    rw [List.foldl_cons]
    exact ih _ (wrap32_int32 _)

/-- `ComputeSize` returns an `int32_t` value. -/
theorem ComputeSize_int32 (shape : List Int) :
    -(2 ^ 31) ≤ ComputeSize shape ∧ ComputeSize shape < 2 ^ 31 :=
  accumulate_int32 shape 1 (by constructor <;> norm_num)

/-! ## The claims -/

/-- C1: in the graph built by `CreateTfLiteModel`, for every input shape, slope shape and flag
setting (a graph is built exactly when `ComputeSize(SlopeShape())` is not negative,
`CreateTfLiteModel_isSome_iff`), with `n`
tensors the PRELU operator is the last operator, its input list is `[n-3, n-2]` and its output
list is `[n-1]`. -/
theorem target_operator_consumes_last_two (t : PreluTester) (cv rng : Nat → Nat)
    (h : 0 ≤ ComputeSize t.SlopeShape) :
    ∃ m, CreateTfLiteModel t cv rng = some m ∧ TargetOperatorInvariant m := by
  obtain ⟨inp, slope, fp, sp⟩ := t
  simp only at h
  cases fp
  · cases sp
    · refine ⟨_, CreateTfLiteModel_dense inp slope cv rng h, _, [], _, rfl, rfl, ?_⟩
      simp [operator_kind]
    · refine ⟨_, CreateTfLiteModel_sparse inp slope cv rng h, _, [_], _, rfl, rfl, ?_⟩
      simp [operator_kind]
  · refine ⟨_, CreateTfLiteModel_fp16 inp slope sp cv rng h, _, [_], _, rfl, rfl, ?_⟩
    simp [operator_kind]

/-- Instance of the index invariant on the half-precision scenario `[1,4,4,3]`, `[3]`. -/
theorem target_operator_consumes_last_two_witness :
    0 ≤ ComputeSize [3] ∧
    ∃ m, CreateTfLiteModel ⟨[1, 4, 4, 3], [3], true, false⟩ (fun x => x) (fun k => k) = some m ∧
      TargetOperatorInvariant m :=
  ⟨by decide,
    target_operator_consumes_last_two ⟨[1, 4, 4, 3], [3], true, false⟩ _ _ (by decide)⟩

/-- C2: the built graph is well-formed: every tensor index of every operator is at least 0 and
below the number of tensors; the subgraph input list is the single index `n-3` of the FLOAT32
tensor with the input shape; the subgraph output list is the single index `n-1`. -/
theorem built_graph_well_formed (t : PreluTester) (cv rng : Nat → Nat)
    (h : 0 ≤ ComputeSize t.SlopeShape) :
    ∃ m, CreateTfLiteModel t cv rng = some m ∧ GraphWellFormed t m := by
  obtain ⟨inp, slope, fp, sp⟩ := t
  simp only at h
  cases fp
  · cases sp
    · refine ⟨_, CreateTfLiteModel_dense inp slope cv rng h, _,
        ⟨inp, TensorType.FLOAT32, 0, none⟩, ⟨0, [0, 1], [2]⟩, rfl, ?_⟩
      simp [tensor_at]
      intro i hi
      omega
    · refine ⟨_, CreateTfLiteModel_sparse inp slope cv rng h, _,
        ⟨inp, TensorType.FLOAT32, 0, none⟩, ⟨0, [1, 2], [3]⟩, rfl, ?_⟩
      simp [tensor_at]
      intro i hi
      omega
  · refine ⟨_, CreateTfLiteModel_fp16 inp slope sp cv rng h, _,
      ⟨inp, TensorType.FLOAT32, 0, none⟩, ⟨0, [1, 2], [3]⟩, rfl, ?_⟩
    simp [tensor_at]
    intro i hi
    omega

/-- Instance of well-formedness on the sparse-encoded scenario `[1,4,4,3]`, `[3]`. -/
theorem built_graph_well_formed_witness :
    0 ≤ ComputeSize [3] ∧
    ∃ m, CreateTfLiteModel ⟨[1, 4, 4, 3], [3], false, true⟩ (fun x => x) (fun k => k) = some m ∧
      GraphWellFormed ⟨[1, 4, 4, 3], [3], false, true⟩ m :=
  ⟨by decide, built_graph_well_formed ⟨[1, 4, 4, 3], [3], false, true⟩ _ _ (by decide)⟩

/-- C3: the dense variant builds 3 tensors and 1 operator, the PRELU operator; the
half-precision and the sparse-encoded variants build 4 tensors and 2 operators, the decode
operator (DEQUANTIZE, DENSIFY) first and the PRELU operator last. -/
theorem variant_tensor_and_operator_counts (t : PreluTester) (cv rng : Nat → Nat)
    (h : 0 ≤ ComputeSize t.SlopeShape) :
    ∃ m, CreateTfLiteModel t cv rng = some m ∧ VariantCounts t m := by
  obtain ⟨inp, slope, fp, sp⟩ := t
  simp only at h
  cases fp
  · cases sp
    · refine ⟨_, CreateTfLiteModel_dense inp slope cv rng h, _, rfl, ?_⟩
      simp [operator_kind]
    · refine ⟨_, CreateTfLiteModel_sparse inp slope cv rng h, _, rfl, ?_⟩
      simp [operator_kind]
  · refine ⟨_, CreateTfLiteModel_fp16 inp slope sp cv rng h, _, rfl, ?_⟩
    simp [operator_kind]

/-- Instance of the counts on the dense scenario `[1,4,4,3]`, `[3]`. -/
theorem variant_tensor_and_operator_counts_witness :
    0 ≤ ComputeSize [3] ∧
    ∃ m, CreateTfLiteModel ⟨[1, 4, 4, 3], [3], false, false⟩ (fun x => x) (fun k => k) = some m ∧
      VariantCounts ⟨[1, 4, 4, 3], [3], false, false⟩ m :=
  ⟨by decide,
    variant_tensor_and_operator_counts ⟨[1, 4, 4, 3], [3], false, false⟩ _ _ (by decide)⟩

/-- C4, as stated, fails: in the dense scenario the slope tensor at `n-2` is on buffer 1, not
on buffer 0, and in the half-precision scenario it is on buffer 0, not on buffer 1. -/
theorem slope_tensor_buffer_claim_fails :
    (∃ m, CreateTfLiteModel ⟨[1, 4, 4, 3], [3], false, false⟩ (fun x => x) (fun k => k) = some m ∧
      ¬ SlopeTensorBuffer 0 1 ⟨[1, 4, 4, 3], [3], false, false⟩ m) ∧
    (∃ m, CreateTfLiteModel ⟨[1, 4, 4, 3], [3], true, false⟩ (fun x => x) (fun k => k) = some m ∧
      ¬ SlopeTensorBuffer 0 1 ⟨[1, 4, 4, 3], [3], true, false⟩ m) := by
  constructor
  · refine ⟨_, CreateTfLiteModel_dense _ _ _ _ (by decide), ?_⟩
    rintro ⟨sg, target, ts, hsg, -, -, hts, hb⟩
    simp only [List.cons.injEq, and_true] at hsg
    subst hsg
    simp [tensor_at] at hts
    subst hts
    simp at hb
  · refine ⟨_, CreateTfLiteModel_fp16 _ _ _ _ _ (by decide), ?_⟩
    rintro ⟨sg, target, ts, hsg, -, -, hts, hb⟩
    simp only [List.cons.injEq, and_true] at hsg
    subst hsg
    simp [tensor_at] at hts
    subst hts
    simp at hb

/-- C4, amended: the slope tensor at position `n-2`, the second input of the PRELU operator,
references the constant buffer 1 in the dense variant and the runtime buffer 0 in the
half-precision and sparse-encoded variants. -/
theorem slope_tensor_buffer_by_variant (t : PreluTester) (cv rng : Nat → Nat)
    (h : 0 ≤ ComputeSize t.SlopeShape) :
    ∃ m, CreateTfLiteModel t cv rng = some m ∧ SlopeTensorBuffer 1 0 t m := by
  obtain ⟨inp, slope, fp, sp⟩ := t
  simp only at h
  cases fp
  · cases sp
    · refine ⟨_, CreateTfLiteModel_dense inp slope cv rng h, _, ⟨0, [0, 1], [2]⟩,
        ⟨slope, TensorType.FLOAT32, 1, none⟩, rfl, ?_⟩
      simp [tensor_at]
    · refine ⟨_, CreateTfLiteModel_sparse inp slope cv rng h, _, ⟨0, [1, 2], [3]⟩,
        ⟨slope, TensorType.FLOAT32, 0, none⟩, rfl, ?_⟩
      simp [tensor_at]
  · refine ⟨_, CreateTfLiteModel_fp16 inp slope sp cv rng h, _, ⟨0, [1, 2], [3]⟩,
      ⟨slope, TensorType.FLOAT32, 0, none⟩, rfl, ?_⟩
    simp [tensor_at]

/-- Instance of the slope buffer rule on the dense scenario `[1,4,4,3]`, `[3]`. -/
theorem slope_tensor_buffer_by_variant_witness :
    0 ≤ ComputeSize [3] ∧
    ∃ m, CreateTfLiteModel ⟨[1, 4, 4, 3], [3], false, false⟩ (fun x => x) (fun k => k) = some m ∧
      SlopeTensorBuffer 1 0 ⟨[1, 4, 4, 3], [3], false, false⟩ m :=
  ⟨by decide, slope_tensor_buffer_by_variant ⟨[1, 4, 4, 3], [3], false, false⟩ _ _ (by decide)⟩

/-- C5: the last tensor of the built graph has the shape of the primary input tensor at
position `n-3`, namely the input shape, whatever the slope shape and the variant; both tensors
are FLOAT32 and reference the runtime buffer 0. -/
theorem output_shape_equals_input_shape (t : PreluTester) (cv rng : Nat → Nat)
    (h : 0 ≤ ComputeSize t.SlopeShape) :
    ∃ m, CreateTfLiteModel t cv rng = some m ∧ OutputShapeMatchesInput t m := by
  obtain ⟨inp, slope, fp, sp⟩ := t
  simp only at h
  cases fp
  · cases sp
    · refine ⟨_, CreateTfLiteModel_dense inp slope cv rng h, _,
        ⟨inp, TensorType.FLOAT32, 0, none⟩, ⟨inp, TensorType.FLOAT32, 0, none⟩, rfl, ?_⟩
      simp [tensor_at]
    · refine ⟨_, CreateTfLiteModel_sparse inp slope cv rng h, _,
        ⟨inp, TensorType.FLOAT32, 0, none⟩, ⟨inp, TensorType.FLOAT32, 0, none⟩, rfl, ?_⟩
      simp [tensor_at]
  · refine ⟨_, CreateTfLiteModel_fp16 inp slope sp cv rng h, _,
      ⟨inp, TensorType.FLOAT32, 0, none⟩, ⟨inp, TensorType.FLOAT32, 0, none⟩, rfl, ?_⟩
    simp [tensor_at]

/-- Instance of shape propagation on a sparse-encoded scenario with slope shape `[2,5]`. -/
theorem output_shape_equals_input_shape_witness :
    0 ≤ ComputeSize [2, 5] ∧
    ∃ m, CreateTfLiteModel ⟨[1, 4, 4, 3], [2, 5], false, true⟩ (fun x => x) (fun k => k) =
        some m ∧
      OutputShapeMatchesInput ⟨[1, 4, 4, 3], [2, 5], false, true⟩ m :=
  ⟨by decide,
    output_shape_equals_input_shape ⟨[1, 4, 4, 3], [2, 5], false, true⟩ _ _ (by decide)⟩

/-- C6: with FP16Weights set, the tensor list is [half-precision slope, input, dense-expanded
slope, output]: tensor 0 is FLOAT16, has the slope shape and references buffer 1; the
DEQUANTIZE operator has input list `[0]` and one output tensor, FLOAT32 and of the slope shape,
whose index is the second input index of the PRELU operator. -/
theorem half_precision_layout (t : PreluTester) (cv rng : Nat → Nat)
    (h : 0 ≤ ComputeSize t.SlopeShape) (hfp : t.FP16Weights = true) :
    ∃ m, CreateTfLiteModel t cv rng = some m ∧ HalfPrecisionLayout t m := by
  obtain ⟨inp, slope, fp, sp⟩ := t
  simp only at h hfp
  subst hfp
  refine ⟨_, CreateTfLiteModel_fp16 inp slope sp cv rng h, _,
    ⟨slope, TensorType.FLOAT16, 1, none⟩, ⟨inp, TensorType.FLOAT32, 0, none⟩,
    ⟨slope, TensorType.FLOAT32, 0, none⟩, ⟨inp, TensorType.FLOAT32, 0, none⟩,
    ⟨1, [0], [2]⟩, ⟨0, [1, 2], [3]⟩, 2, rfl, ?_⟩
  simp [operator_kind, tensor_at, PreluTester.OutputShape]

/-- Instance of the half-precision layout on the scenario `[1,4,4,3]`, `[3]`. -/
theorem half_precision_layout_witness :
    0 ≤ ComputeSize [3] ∧ (true = true) ∧
    ∃ m, CreateTfLiteModel ⟨[1, 4, 4, 3], [3], true, false⟩ (fun x => x) (fun k => k) = some m ∧
      HalfPrecisionLayout ⟨[1, 4, 4, 3], [3], true, false⟩ m :=
  ⟨by decide, rfl,
    half_precision_layout ⟨[1, 4, 4, 3], [3], true, false⟩ _ _ (by decide) rfl⟩

/-- C7: with SparseWeights set and FP16Weights not set, for a slope shape of rank `d`, tensor 0
is FLOAT32, has the slope shape, references buffer 1 and carries sparsity metadata with
traversal order `[0, ..., d-1]` and `d` dimension entries, entry `i` DENSE of dense size
`slopeShape[i]`; the DENSIFY operator has input list `[0]` and one output tensor, FLOAT32 and
of the slope shape, whose index is the second input index of the PRELU operator. -/
theorem sparse_encoded_layout (t : PreluTester) (cv rng : Nat → Nat)
    (h : 0 ≤ ComputeSize t.SlopeShape) (hfp : t.FP16Weights = false)
    (hsp : t.SparseWeights = true) :
    ∃ m, CreateTfLiteModel t cv rng = some m ∧ SparseEncodedLayout t m := by
  obtain ⟨inp, slope, fp, sp⟩ := t
  simp only at h hfp hsp
  subst hfp hsp
  refine ⟨_, CreateTfLiteModel_sparse inp slope cv rng h, _,
    ⟨slope, TensorType.FLOAT32, 1, some
      ⟨(List.range slope.length).map Int.ofNat, none,
        slope.map (fun d => some (DimensionMetadata.mk DimensionType.DENSE d))⟩⟩,
    ⟨(List.range slope.length).map Int.ofNat, none,
      slope.map (fun d => some (DimensionMetadata.mk DimensionType.DENSE d))⟩,
    ⟨1, [0], [2]⟩, ⟨0, [1, 2], [3]⟩, 2, ⟨slope, TensorType.FLOAT32, 0, none⟩, rfl, ?_⟩
  simp [operator_kind, tensor_at]

/-- Instance of the sparse-encoded layout on a scenario with slope shape `[2,5]`. -/
theorem sparse_encoded_layout_witness :
    0 ≤ ComputeSize [2, 5] ∧ (false = false) ∧ (true = true) ∧
    ∃ m, CreateTfLiteModel ⟨[1, 4, 4, 3], [2, 5], false, true⟩ (fun x => x) (fun k => k) =
        some m ∧
      SparseEncodedLayout ⟨[1, 4, 4, 3], [2, 5], false, true⟩ m :=
  ⟨by decide, rfl, rfl,
    sparse_encoded_layout ⟨[1, 4, 4, 3], [2, 5], false, true⟩ _ _ (by decide) rfl rfl⟩

/-- C8: the output comparison step of `PreluTester::Test` passes if and only if the two arrays
hold equal values at every index below `ComputeSize(OutputShape())`; when they differ at such an
index it fails, at the smallest differing index. -/
theorem output_comparison_reports_first_mismatch (t : PreluTester) (a b : Nat → Nat)
    (h : 0 ≤ ComputeSize t.OutputShape) : FirstMismatchReported t a b := by
  have hsz : size_t_of (ComputeSize t.OutputShape) = (ComputeSize t.OutputShape).toNat :=
    size_t_of_nonneg h (ComputeSize_int32 _).2
  have hlt : ∀ i : Nat, i < (ComputeSize t.OutputShape).toNat ↔
      (i : Int) < ComputeSize t.OutputShape := by
    intro i
    omega
  have hnone : compare_outputs t a b = none ↔
      ∀ i : Nat, (i : Int) < ComputeSize t.OutputShape → float_eq (a i) (b i) = true := by
    unfold compare_outputs
    rw [compare_from_eq_none, hsz]
    constructor
    · intro hall i hi
      exact hall i (Nat.zero_le i) (by rw [Nat.zero_add]; exact (hlt i).2 hi)
    · intro hall j _ hj
      rw [Nat.zero_add] at hj
      exact hall j ((hlt j).1 hj)
  have hsome : ∀ k : Nat, compare_outputs t a b = some k ↔
      ((k : Int) < ComputeSize t.OutputShape ∧ float_eq (a k) (b k) = false ∧
        ∀ j : Nat, j < k → float_eq (a j) (b j) = true) := by
    intro k
    unfold compare_outputs
    rw [compare_from_eq_some, hsz]
    constructor
    · rintro ⟨-, h2, h3, h4⟩
      rw [Nat.zero_add] at h2
      exact ⟨(hlt k).1 h2, h3, fun j hj => h4 j (Nat.zero_le j) hj⟩
    · rintro ⟨h2, h3, h4⟩
      exact ⟨Nat.zero_le k, by rw [Nat.zero_add]; exact (hlt k).2 h2, h3,
        fun j _ hj => h4 j hj⟩
  refine ⟨hnone, hsome, ?_⟩
  intro i hi hne
  cases hres : compare_outputs t a b with
  | none =>
    have := hnone.1 hres i hi
    rw [hne] at this
    exact Bool.noConfusion this
  | some k =>
    refine ⟨k, ?_, rfl⟩
    by_contra hki
    have := ((hsome k).1 hres).2.2 i (by omega)
    rw [hne] at this
    exact Bool.noConfusion this

/-- Instance of the comparison contract on four output values, the accelerated output
perturbed from index 2 on. -/
theorem output_comparison_reports_first_mismatch_witness :
    0 ≤ ComputeSize (PreluTester.OutputShape ⟨[1, 2, 2, 1], [1], false, false⟩) ∧
    FirstMismatchReported ⟨[1, 2, 2, 1], [1], false, false⟩
      (fun i => 1065353216 + i) (fun i => if i < 2 then 1065353216 + i else 0) :=
  ⟨by decide,
    output_comparison_reports_first_mismatch ⟨[1, 2, 2, 1], [1], false, false⟩ _ _
      (by decide)⟩

/-- C9: `ComputeSize(shape)` is the product of the dimensions of `shape` whenever the running
product stays within the 32-bit signed range; it is 1 for the empty shape, 48 for `[1,4,4,3]`
and 3 for `[3]`. -/
theorem ComputeSize_eq_product (shape : List Int) (h : RunningProductInRange shape) :
    ComputeSize shape = shape.prod ∧ ComputeSize [] = 1 ∧
      ComputeSize [1, 4, 4, 3] = 48 ∧ ComputeSize [3] = 3 := by
  refine ⟨?_, by decide, by decide, by decide⟩
  unfold ComputeSize
  rw [accumulate_eq_mul_prod shape 1, one_mul]
  intro k hk
  simpa using h k hk

/-- Instance of the product rule on the shape `[2,3,5]`. -/
theorem ComputeSize_eq_product_witness :
    RunningProductInRange [2, 3, 5] ∧
    (ComputeSize [2, 3, 5] = [2, 3, 5].prod ∧ ComputeSize [] = 1 ∧
      ComputeSize [1, 4, 4, 3] = 48 ∧ ComputeSize [3] = 3) :=
  ⟨by unfold RunningProductInRange; decide,
    ComputeSize_eq_product [2, 3, 5] (by unfold RunningProductInRange; decide)⟩

/-- C10: in the dense variant the slope tensor consumed by the PRELU operator references the
constant buffer 1, whose payload is the `ComputeSize(SlopeShape())` drawn 32-bit values
(`4 * ComputeSize(SlopeShape())` bytes); the tensor has no sparsity metadata and the PRELU
operator is the only operator. -/
theorem dense_weight_layout (t : PreluTester) (cv rng : Nat → Nat)
    (h : 0 ≤ ComputeSize t.SlopeShape) (hfp : t.FP16Weights = false)
    (hsp : t.SparseWeights = false) :
    ∃ m, CreateTfLiteModel t cv rng = some m ∧ DenseWeightLayout t rng m := by
  obtain ⟨inp, slope, fp, sp⟩ := t
  simp only at h hfp hsp
  subst hfp hsp
  refine ⟨_, CreateTfLiteModel_dense inp slope cv rng h, _, ⟨0, [0, 1], [2]⟩, 1,
    ⟨slope, TensorType.FLOAT32, 1, none⟩, _, _, rfl, rfl, rfl, rfl, rfl, rfl, rfl, rfl, rfl,
    rfl, rfl, ?_, rfl, ?_⟩
  · rw [generate_length]
    exact Int.toNat_of_nonneg h
  · show ((vector_bytes 4 (generate (ComputeSize slope).toNat rng)).length : Int) =
      4 * ComputeSize slope
    rw [vector_bytes_length, generate_length]
    push_cast
    rw [Int.toNat_of_nonneg h]

/-- Instance of the dense layout on the scenario `[1,4,4,3]`, `[3]`. -/
theorem dense_weight_layout_witness :
    0 ≤ ComputeSize [3] ∧ (false = false) ∧ (false = false) ∧
    ∃ m, CreateTfLiteModel ⟨[1, 4, 4, 3], [3], false, false⟩ (fun x => x) (fun k => k) = some m ∧
      DenseWeightLayout ⟨[1, 4, 4, 3], [3], false, false⟩ (fun k => k) m :=
  ⟨by decide, rfl, rfl,
    dense_weight_layout ⟨[1, 4, 4, 3], [3], false, false⟩ _ _ (by decide) rfl rfl⟩

/-- C11: the operator-code table is `[PRELU]` for the dense variant, `[PRELU, DEQUANTIZE]` with
FP16Weights and `[PRELU, DENSIFY]` for the sparse-encoded variant; every operator's opcode
index is a valid index into it; the target operator resolves to PRELU and the auxiliary
operator, when present, to the decode kind registered for the variant. -/
theorem operator_code_table_by_variant (t : PreluTester) (cv rng : Nat → Nat)
    (h : 0 ≤ ComputeSize t.SlopeShape) :
    ∃ m, CreateTfLiteModel t cv rng = some m ∧ OperatorCodeTable t m := by
  obtain ⟨inp, slope, fp, sp⟩ := t
  simp only at h
  cases fp
  · cases sp
    · refine ⟨_, CreateTfLiteModel_dense inp slope cv rng h, rfl, _, [], ⟨0, [0, 1], [2]⟩,
        rfl, rfl, ?_⟩
      simp [operator_kind]
    · refine ⟨_, CreateTfLiteModel_sparse inp slope cv rng h, rfl, _, [⟨1, [0], [2]⟩],
        ⟨0, [1, 2], [3]⟩, rfl, rfl, ?_⟩
      simp [operator_kind]
  · refine ⟨_, CreateTfLiteModel_fp16 inp slope sp cv rng h, rfl, _, [⟨1, [0], [2]⟩],
      ⟨0, [1, 2], [3]⟩, rfl, rfl, ?_⟩
    simp [operator_kind]

/-- Instance of the operator-code table on the sparse-encoded scenario `[1,4,4,3]`, `[3]`. -/
theorem operator_code_table_by_variant_witness :
    0 ≤ ComputeSize [3] ∧
    ∃ m, CreateTfLiteModel ⟨[1, 4, 4, 3], [3], false, true⟩ (fun x => x) (fun k => k) = some m ∧
      OperatorCodeTable ⟨[1, 4, 4, 3], [3], false, true⟩ m :=
  ⟨by decide, operator_code_table_by_variant ⟨[1, 4, 4, 3], [3], false, true⟩ _ _ (by decide)⟩

/-- C12: the buffer table has exactly two entries: buffer 0 is empty and buffer 1 holds the
slope payload of `ComputeSize(SlopeShape())` values, `2 * ComputeSize(SlopeShape())` bytes with
FP16Weights and `4 * ComputeSize(SlopeShape())` bytes otherwise; every tensor's buffer index is
a valid index into the table. -/
theorem buffer_table_two_entries (t : PreluTester) (cv rng : Nat → Nat)
    (h : 0 ≤ ComputeSize t.SlopeShape) :
    ∃ m, CreateTfLiteModel t cv rng = some m ∧ BufferTable t cv rng m := by
  obtain ⟨inp, slope, fp, sp⟩ := t
  simp only at h
  have hn : (((ComputeSize slope).toNat : Nat) : Int) = ComputeSize slope :=
    Int.toNat_of_nonneg h
  cases fp
  · have hlen : ((vector_bytes 4 (generate (ComputeSize slope).toNat rng)).length : Int) =
        4 * ComputeSize slope := by
      rw [vector_bytes_length, generate_length]
      push_cast
      rw [hn]
    cases sp
    · refine ⟨_, CreateTfLiteModel_dense inp slope cv rng h, _, _,
        generate (ComputeSize slope).toNat rng, rfl, rfl, ?_, rfl, rfl, hlen, ?_⟩
      · rw [generate_length]
        exact hn
      · simp
    · refine ⟨_, CreateTfLiteModel_sparse inp slope cv rng h, _, _,
        generate (ComputeSize slope).toNat rng, rfl, rfl, ?_, rfl, rfl, hlen, ?_⟩
      · rw [generate_length]
        exact hn
      · simp
  · have hlen : ((vector_bytes 2
        (generate (ComputeSize slope).toNat (fun k => cv (rng k)))).length : Int) =
        2 * ComputeSize slope := by
      rw [vector_bytes_length, generate_length]
      push_cast
      rw [hn]
    refine ⟨_, CreateTfLiteModel_fp16 inp slope sp cv rng h, _, _,
      generate (ComputeSize slope).toNat (fun k => cv (rng k)), rfl, rfl, ?_, rfl, rfl,
      hlen, ?_⟩
    · rw [generate_length]
      exact hn
    · simp

/-- Instance of the buffer table on the half-precision scenario `[1,4,4,3]`, `[3]`. -/
theorem buffer_table_two_entries_witness :
    0 ≤ ComputeSize [3] ∧
    ∃ m, CreateTfLiteModel ⟨[1, 4, 4, 3], [3], true, false⟩ (fun x => x) (fun k => k) = some m ∧
      BufferTable ⟨[1, 4, 4, 3], [3], true, false⟩ (fun x => x) (fun k => k) m :=
  ⟨by decide, buffer_table_two_entries ⟨[1, 4, 4, 3], [3], true, false⟩ _ _ (by decide)⟩

/-- Definition before use in the dense graph. -/
theorem dense_defined_before_use (inp slope : List Int) (ops_codes : List OperatorCode)
    (bufs : List Buffer) (v : Nat) (d : String) :
    DefinedBeforeUse
      { version := v
        operator_codes := ops_codes
        subgraphs := [
          { tensors := [⟨inp, TensorType.FLOAT32, 0, none⟩, ⟨slope, TensorType.FLOAT32, 1, none⟩,
              ⟨inp, TensorType.FLOAT32, 0, none⟩]
            inputs := [0]
            outputs := [2]
            operators := [⟨0, [0, 1], [2]⟩] }]
        description := d
        buffers := bufs } := by
  refine ⟨_, ⟨0, [0, 1], [2]⟩, rfl, ?_, by simp, rfl, rfl⟩
  intro k op hk i hi
  rcases k with _ | k
  · simp only [List.getElem?_cons_zero, Option.some.injEq] at hk
    subst hk
    simp only [List.mem_cons, List.mem_singleton, List.not_mem_nil, or_false] at hi
    rcases hi with rfl | rfl
    · left
      simp
    · right
      left
      exact ⟨⟨slope, TensorType.FLOAT32, 1, none⟩, by simp [tensor_at], rfl⟩
  · simp at hk

/-- Definition before use in a graph with a decode operator on tensor 0, whatever the type
and sparsity metadata of that tensor. -/
theorem decoded_defined_before_use (inp slope : List Int) (ty : TensorType)
    (sparsity : Option SparsityParameters) (ops_codes : List OperatorCode)
    (bufs : List Buffer) (v : Nat) (d : String) :
    DefinedBeforeUse
      { version := v
        operator_codes := ops_codes
        subgraphs := [
          { tensors := [⟨slope, ty, 1, sparsity⟩, ⟨inp, TensorType.FLOAT32, 0, none⟩,
              ⟨slope, TensorType.FLOAT32, 0, none⟩, ⟨inp, TensorType.FLOAT32, 0, none⟩]
            inputs := [1]
            outputs := [3]
            operators := [⟨1, [0], [2]⟩, ⟨0, [1, 2], [3]⟩] }]
        description := d
        buffers := bufs } := by
  refine ⟨_, ⟨0, [1, 2], [3]⟩, rfl, ?_, by simp, rfl, rfl⟩
  intro k op hk i hi
  rcases k with _ | _ | k
  · simp only [List.getElem?_cons_zero, Option.some.injEq] at hk
    subst hk
    simp only [List.mem_singleton] at hi
    subst hi
    right
    left
    exact ⟨⟨slope, ty, 1, sparsity⟩, by simp [tensor_at], rfl⟩
  · simp only [List.getElem?_cons_succ, List.getElem?_cons_zero, Option.some.injEq] at hk
    subst hk
    simp only [List.mem_cons, List.mem_singleton, List.not_mem_nil, or_false] at hi
    rcases hi with rfl | rfl
    · left
      simp
    · right
      right
      exact ⟨0, ⟨1, [0], [2]⟩, by omega, rfl, by simp⟩
  · simp at hk

/-- C15: in every built graph every tensor consumed by an operator is defined before use: it
is the subgraph input, or a tensor on the constant buffer 1, or the output of a strictly
earlier operator; no tensor is the output of two operators; the subgraph output is the output
of the last operator. -/
theorem tensors_defined_before_use (t : PreluTester) (cv rng : Nat → Nat)
    (h : 0 ≤ ComputeSize t.SlopeShape) :
    ∃ m, CreateTfLiteModel t cv rng = some m ∧ DefinedBeforeUse m := by
  obtain ⟨inp, slope, fp, sp⟩ := t
  simp only at h
  cases fp
  · cases sp
    · exact ⟨_, CreateTfLiteModel_dense inp slope cv rng h,
        dense_defined_before_use inp slope _ _ _ _⟩
    · exact ⟨_, CreateTfLiteModel_sparse inp slope cv rng h,
        decoded_defined_before_use inp slope _ _ _ _ _ _⟩
  · exact ⟨_, CreateTfLiteModel_fp16 inp slope sp cv rng h,
      decoded_defined_before_use inp slope _ _ _ _ _ _⟩

/-- Instance of definition before use on the half-precision scenario `[1,4,4,3]`, `[3]`. -/
theorem tensors_defined_before_use_witness :
    0 ≤ ComputeSize [3] ∧
    ∃ m, CreateTfLiteModel ⟨[1, 4, 4, 3], [3], true, false⟩ (fun x => x) (fun k => k) = some m ∧
      DefinedBeforeUse m :=
  ⟨by decide, tensors_defined_before_use ⟨[1, 4, 4, 3], [3], true, false⟩ _ _ (by decide)⟩

/-- C16: with both FP16Weights and SparseWeights set, the built graph is the graph built with
FP16Weights set and SparseWeights unset, for the same shapes and slope draws; it has one
auxiliary operator, no DENSIFY opcode and no sparsity metadata. -/
theorem fp16_takes_precedence_over_sparse (inp slope : List Int) (cv rng : Nat → Nat)
    (h : 0 ≤ ComputeSize slope) :
    CreateTfLiteModel ⟨inp, slope, true, true⟩ cv rng =
        CreateTfLiteModel ⟨inp, slope, true, false⟩ cv rng ∧
    ∃ m, CreateTfLiteModel ⟨inp, slope, true, true⟩ cv rng = some m ∧ NoSparseTrace m := by
  refine ⟨?_, _, CreateTfLiteModel_fp16 inp slope true cv rng h, _, rfl, ?_⟩
  · rw [CreateTfLiteModel_fp16 inp slope true cv rng h,
      CreateTfLiteModel_fp16 inp slope false cv rng h]
  · simp [operator_kind]

/-- Instance of the precedence of FP16Weights on the scenario `[1,4,4,3]`, `[3]`. -/
theorem fp16_takes_precedence_over_sparse_witness :
    0 ≤ ComputeSize [3] ∧
    (CreateTfLiteModel ⟨[1, 4, 4, 3], [3], true, true⟩ (fun x => x) (fun k => k) =
        CreateTfLiteModel ⟨[1, 4, 4, 3], [3], true, false⟩ (fun x => x) (fun k => k) ∧
      ∃ m, CreateTfLiteModel ⟨[1, 4, 4, 3], [3], true, true⟩ (fun x => x) (fun k => k) =
          some m ∧ NoSparseTrace m) :=
  ⟨by decide, fp16_takes_precedence_over_sparse [1, 4, 4, 3] [3] _ _ (by decide)⟩

/-- C17: for the same shapes and flags, the graphs built from two sequences of slope draws
have the same operator codes, tensors, operators and subgraph inputs and outputs; they differ
at most in the contents of buffer 1, whose length is the same. -/
theorem structure_independent_of_slope_values (t : PreluTester) (cv rng1 rng2 : Nat → Nat)
    (h : 0 ≤ ComputeSize t.SlopeShape) :
    ∃ m1 m2, CreateTfLiteModel t cv rng1 = some m1 ∧ CreateTfLiteModel t cv rng2 = some m2 ∧
      SameStructure m1 m2 := by
  obtain ⟨inp, slope, fp, sp⟩ := t
  simp only at h
  cases fp
  · cases sp
    · refine ⟨_, _, CreateTfLiteModel_dense inp slope cv rng1 h,
        CreateTfLiteModel_dense inp slope cv rng2 h, rfl, rfl, rfl, rfl, _, _, rfl, rfl, ?_⟩
      simp only [vector_bytes_length, generate_length]
    · refine ⟨_, _, CreateTfLiteModel_sparse inp slope cv rng1 h,
        CreateTfLiteModel_sparse inp slope cv rng2 h, rfl, rfl, rfl, rfl, _, _, rfl, rfl, ?_⟩
      simp only [vector_bytes_length, generate_length]
  · refine ⟨_, _, CreateTfLiteModel_fp16 inp slope sp cv rng1 h,
      CreateTfLiteModel_fp16 inp slope sp cv rng2 h, rfl, rfl, rfl, rfl, _, _, rfl, rfl, ?_⟩
    simp only [vector_bytes_length, generate_length]

/-- Instance of the independence on the dense scenario `[1,4,4,3]`, `[3]` with two different
sequences of draws. -/
theorem structure_independent_of_slope_values_witness :
    0 ≤ ComputeSize [3] ∧
    ∃ m1 m2,
      CreateTfLiteModel ⟨[1, 4, 4, 3], [3], false, false⟩ (fun x => x) (fun k => k) = some m1 ∧
      CreateTfLiteModel ⟨[1, 4, 4, 3], [3], false, false⟩ (fun x => x) (fun k => 7 * k + 1) =
        some m2 ∧
      SameStructure m1 m2 :=
  ⟨by decide,
    structure_independent_of_slope_values ⟨[1, 4, 4, 3], [3], false, false⟩ _ _ _ (by decide)⟩

theorem range_size_of_nonneg {n : Int} (h : 0 ≤ n) : range_size n = some n.toNat := by
  unfold range_size
  rw [if_neg (by omega)]

/-- Memory after `std::generate`: the range holds the draws in order, the rest is unchanged. -/
theorem std_generate_apply (gen : Nat → Nat) (n first k : Nat) (heap : Nat → Nat) (q : Nat) :
    std_generate gen n first k heap q =
      if first ≤ q ∧ q < first + n then gen (k + (q - first)) else heap q := by
  induction n generalizing first k heap with
  | zero =>
    unfold std_generate
    rw [if_neg (by omega)]
  | succ n ih =>
    unfold std_generate
    rw [ih]
    by_cases h1 : first + 1 ≤ q ∧ q < first + 1 + n
    · rw [if_pos h1, if_pos (by omega)]
      congr 1
      omega
    · rw [if_neg h1]
      unfold store
      by_cases h2 : q = first
      · rw [if_pos h2, if_pos (by omega), h2, Nat.sub_self, Nat.add_zero]
      · rw [if_neg h2, if_neg (by omega)]

/-- Memory after `std::copy` between two ranges that do not overlap: the destination holds
the source, the rest is unchanged. -/
theorem std_copy_apply (n first d_first : Nat) (heap : Nat → Nat) (q : Nat)
    (hd : first + n ≤ d_first ∨ d_first + n ≤ first) :
    std_copy n first d_first heap q =
      if d_first ≤ q ∧ q < d_first + n then heap (first + (q - d_first)) else heap q := by
  induction n generalizing first d_first heap with
  | zero =>
    unfold std_copy
    rw [if_neg (by omega)]
  | succ n ih =>
    unfold std_copy
    rw [ih (first + 1) (d_first + 1) _ (by omega)]
    by_cases h1 : d_first + 1 ≤ q ∧ q < d_first + 1 + n
    · rw [if_pos h1, if_pos (by omega)]
      unfold store
      rw [if_neg (by omega)]
      congr 1
      omega
    · rw [if_neg h1]
      unfold store
      by_cases h2 : q = d_first
      · rw [if_pos h2, if_pos (by omega), h2, Nat.sub_self, Nat.add_zero]
      · rw [if_neg h2, if_neg (by omega)]

/-- C13: in `PreluTester::Test` the input values are generated once, into the reference
engine's input tensor, and then copied into the accelerated engine's input tensor: afterwards
element `i` of the accelerated input equals element `i` of the reference input for every `i`
below `ComputeSize(InputShape())`, and the copy leaves the reference input unchanged. The two
input tensors are distinct memory ranges. -/
theorem inputs_identical_after_copy (t : PreluTester) (input_rng : Nat → Nat)
    (default_input_data xnnpack_input_data : Nat) (heap : Nat → Nat)
    (h : 0 ≤ ComputeSize t.InputShape)
    (hd : (default_input_data : Int) + ComputeSize t.InputShape ≤ xnnpack_input_data ∨
      (xnnpack_input_data : Int) + ComputeSize t.InputShape ≤ default_input_data) :
    ∃ mid fin, generate_inputs t input_rng default_input_data heap = some mid ∧
      copy_inputs t default_input_data xnnpack_input_data mid = some fin ∧
      InputsIdentical t input_rng default_input_data xnnpack_input_data heap mid fin := by
  have hn : (((ComputeSize t.InputShape).toNat : Nat) : Int) = ComputeSize t.InputShape :=
    Int.toNat_of_nonneg h
  have hd2 : default_input_data + (ComputeSize t.InputShape).toNat ≤ xnnpack_input_data ∨
      xnnpack_input_data + (ComputeSize t.InputShape).toNat ≤ default_input_data := by
    omega
  refine ⟨std_generate input_rng (ComputeSize t.InputShape).toNat default_input_data 0 heap,
    std_copy (ComputeSize t.InputShape).toNat default_input_data xnnpack_input_data
      (std_generate input_rng (ComputeSize t.InputShape).toNat default_input_data 0 heap),
    ?_, ?_, ?_, ?_, ?_, ?_, ?_⟩
  · simp [generate_inputs, range_size_of_nonneg h]
  · simp [copy_inputs, range_size_of_nonneg h]
  · intro i hi
    rw [std_generate_apply, if_pos (by omega)]
    congr 1
    omega
  · intro q hq
    rw [std_generate_apply, if_neg]
    rintro ⟨h1, h2⟩
    exact hq (q - default_input_data) (by omega) (by omega)
  · intro i hi
    rw [std_copy_apply _ _ _ _ _ hd2, std_copy_apply _ _ _ _ _ hd2, if_pos (by omega),
      if_neg (by omega)]
    congr 1
    omega
  · intro i hi
    rw [std_copy_apply _ _ _ _ _ hd2, if_neg (by omega)]
  · intro q hq
    rw [std_copy_apply _ _ _ _ _ hd2, if_neg]
    rintro ⟨h1, h2⟩
    exact hq (q - xnnpack_input_data) (by omega) (by omega)

/-- Instance of the input step on the shape `[1,2,2,1]` with the reference input at address
16 and the accelerated input at address 64. -/
theorem inputs_identical_after_copy_witness :
    0 ≤ ComputeSize (PreluTester.InputShape ⟨[1, 2, 2, 1], [1], false, false⟩) ∧
    (((16 : Nat) : Int) + ComputeSize (PreluTester.InputShape ⟨[1, 2, 2, 1], [1], false, false⟩)
        ≤ ((64 : Nat) : Int) ∨
      ((64 : Nat) : Int) + ComputeSize (PreluTester.InputShape ⟨[1, 2, 2, 1], [1], false, false⟩)
        ≤ ((16 : Nat) : Int)) ∧
    ∃ mid fin,
      generate_inputs ⟨[1, 2, 2, 1], [1], false, false⟩ (fun k => 1000 + k) 16 (fun _ => 0) =
        some mid ∧
      copy_inputs ⟨[1, 2, 2, 1], [1], false, false⟩ 16 64 mid = some fin ∧
      InputsIdentical ⟨[1, 2, 2, 1], [1], false, false⟩ (fun k => 1000 + k) 16 64 (fun _ => 0)
        mid fin :=
  ⟨by decide, Or.inl (by decide),
    inputs_identical_after_copy ⟨[1, 2, 2, 1], [1], false, false⟩ (fun k => 1000 + k) 16 64
      (fun _ => 0) (by decide) (Or.inl (by decide))⟩

/-- The run of `Test` is the staged run: it stops at the first stage that does not succeed,
with the calls made up to that stage. -/
theorem Test_eq_first_failure (t : PreluTester) (env : TestEnv) (model : Model)
    (hm : CreateTfLiteModel t env.fp16_ieee_from_fp32_value env.slope_rng = some model)
    (hin : 0 ≤ ComputeSize t.InputShape) :
    Test t env =
      (match first_failure t env model with
       | none => full_calls model
       | some s => (full_calls model).take (stage_calls s),
       match first_failure t env model with
       | none => TestOutcome.passed
       | some s => TestOutcome.failed s) := by
  unfold Test
  rw [hm]
  unfold first_failure stages
  rcases hd : env.build_delegate_interpreter model with ⟨ds, di⟩
  rcases hr : env.build_default_interpreter model with ⟨rs, ri⟩
  by_cases c1 : ds = TfLiteStatus.kTfLiteOk
  swap
  · simp [stage_ok, hd, hr, c1, full_calls, stage_calls]
  by_cases c2 : rs = TfLiteStatus.kTfLiteOk
  swap
  · simp [stage_ok, hd, hr, c1, c2, full_calls, stage_calls]
  cases di with
  | none => simp [stage_ok, hd, hr, c1, c2, full_calls, stage_calls]
  | some di =>
  cases ri with
  | none => simp [stage_ok, hd, hr, c1, c2, full_calls, stage_calls]
  | some ri =>
  by_cases c3 : di.inputs.length = 1
  swap
  · simp [stage_ok, hd, hr, c1, c2, c3, full_calls, stage_calls]
  by_cases c4 : ri.inputs.length = 1
  swap
  · simp [stage_ok, hd, hr, c1, c2, c3, c4, full_calls, stage_calls]
  by_cases c5 : di.outputs.length = 1
  swap
  · simp [stage_ok, hd, hr, c1, c2, c3, c4, c5, full_calls, stage_calls]
  by_cases c6 : ri.outputs.length = 1
  swap
  · simp [stage_ok, hd, hr, c1, c2, c3, c4, c5, c6, full_calls, stage_calls]
  by_cases c7 : di.AllocateTensors = TfLiteStatus.kTfLiteOk
  swap
  · simp [stage_ok, hd, hr, c1, c2, c3, c4, c5, c6, c7, full_calls, stage_calls]
  by_cases c8 : ri.AllocateTensors = TfLiteStatus.kTfLiteOk
  swap
  · simp [stage_ok, hd, hr, c1, c2, c3, c4, c5, c6, c7, c8, full_calls, stage_calls]
  by_cases c9 : di.ModifyGraphWithDelegate = TfLiteStatus.kTfLiteOk
  swap
  · simp [stage_ok, hd, hr, c1, c2, c3, c4, c5, c6, c7, c8, c9, full_calls, stage_calls]
  by_cases c10 : (ri.Invoke (heap_after_inputs t env di ri)).1 = TfLiteStatus.kTfLiteOk
  swap
  · simp [stage_ok, hd, hr, c1, c2, c3, c4, c5, c6, c7, c8, c9, full_calls, stage_calls,
      generate_inputs, copy_inputs, range_size_of_nonneg hin, heap_after_inputs] at c10 ⊢
    simp [c10]
  by_cases c11 : (di.Invoke (ri.Invoke (heap_after_inputs t env di ri)).2).1 =
      TfLiteStatus.kTfLiteOk
  swap
  · simp [stage_ok, hd, hr, c1, c2, c3, c4, c5, c6, c7, c8, c9, full_calls, stage_calls,
      generate_inputs, copy_inputs, range_size_of_nonneg hin, heap_after_inputs] at c10 c11 ⊢
    simp [c10, c11]
  cases c12 : compare_outputs t
      (fun i => (di.Invoke (ri.Invoke (heap_after_inputs t env di ri)).2).2
        (ri.typed_tensor (ri.outputs.getD 0 0) + i))
      (fun i => (di.Invoke (ri.Invoke (heap_after_inputs t env di ri)).2).2
        (di.typed_tensor (di.outputs.getD 0 0) + i)) with
  | none =>
    simp [stage_ok, hd, hr, c1, c2, c3, c4, c5, c6, c7, c8, c9, full_calls, stage_calls,
      generate_inputs, copy_inputs, range_size_of_nonneg hin, heap_after_inputs] at c10 c11 c12 ⊢
    simp [c10, c11, c12]
  | some k =>
    simp [stage_ok, hd, hr, c1, c2, c3, c4, c5, c6, c7, c8, c9, full_calls, stage_calls,
      generate_inputs, copy_inputs, range_size_of_nonneg hin, heap_after_inputs] at c10 c11 c12 ⊢
    simp [c10, c11, c12]

/-- When an allocation or the attachment of the delegate does not succeed, the first stage
that does not succeed is reached after at most five calls. -/
theorem first_failure_before_invoke (t : PreluTester) (env : TestEnv) (model : Model)
    (h : stage_ok t env model Stage.allocate_delegate = false ∨
      stage_ok t env model Stage.allocate_default = false ∨
      stage_ok t env model Stage.modify_graph = false) :
    ∃ s, first_failure t env model = some s ∧ stage_calls s ≤ 5 := by
  unfold first_failure stages
  cases h1 : stage_ok t env model Stage.build_delegate
  · exact ⟨Stage.build_delegate, by simp [List.find?, h1], by decide⟩
  cases h2 : stage_ok t env model Stage.build_default
  · exact ⟨Stage.build_default, by simp [List.find?, h1, h2], by decide⟩
  cases h3 : stage_ok t env model Stage.delegate_non_null
  · exact ⟨Stage.delegate_non_null, by simp [List.find?, h1, h2, h3], by decide⟩
  cases h4 : stage_ok t env model Stage.default_non_null
  · exact ⟨Stage.default_non_null, by simp [List.find?, h1, h2, h3, h4], by decide⟩
  cases h5 : stage_ok t env model Stage.delegate_one_input
  · exact ⟨Stage.delegate_one_input, by simp [List.find?, h1, h2, h3, h4, h5], by decide⟩
  cases h6 : stage_ok t env model Stage.default_one_input
  · exact ⟨Stage.default_one_input, by simp [List.find?, h1, h2, h3, h4, h5, h6], by decide⟩
  cases h7 : stage_ok t env model Stage.delegate_one_output
  · exact ⟨Stage.delegate_one_output, by simp [List.find?, h1, h2, h3, h4, h5, h6, h7], by decide⟩
  cases h8 : stage_ok t env model Stage.default_one_output
  · exact ⟨Stage.default_one_output, by simp [List.find?, h1, h2, h3, h4, h5, h6, h7, h8], by decide⟩
  cases h9 : stage_ok t env model Stage.allocate_delegate
  · exact ⟨Stage.allocate_delegate, by simp [List.find?, h1, h2, h3, h4, h5, h6, h7, h8, h9], by decide⟩
  cases h10 : stage_ok t env model Stage.allocate_default
  · exact ⟨Stage.allocate_default, by simp [List.find?, h1, h2, h3, h4, h5, h6, h7, h8, h9, h10], by decide⟩
  cases h11 : stage_ok t env model Stage.modify_graph
  · exact ⟨Stage.modify_graph, by simp [List.find?, h1, h2, h3, h4, h5, h6, h7, h8, h9, h10, h11], by decide⟩
  rw [h9, h10, h11] at h
  simp at h

/-- C14: `PreluTester::Test`, over an engine interface whose steps return a status, passes
only if every stage succeeds, in the order: both engines built from the same model, one input
and one output each, both allocated, the delegate attached, both invoked, outputs equal; the
first stage that does not succeed ends the run as a failure with no later call made; after a
failed allocation or a rejected delegate no engine is invoked. -/
theorem test_stops_at_first_failing_stage (t : PreluTester) (env : TestEnv)
    (hs : 0 ≤ ComputeSize t.SlopeShape) (hin : 0 ≤ ComputeSize t.InputShape) :
    ∃ model, CreateTfLiteModel t env.fp16_ieee_from_fp32_value env.slope_rng = some model ∧
      StagedRun t env model := by
  obtain ⟨model, hm⟩ := Option.isSome_iff_exists.1
    ((CreateTfLiteModel_isSome_iff t env.fp16_ieee_from_fp32_value env.slope_rng).2 hs)
  have heq := Test_eq_first_failure t env model hm hin
  have hpass : (Test t env).2 = TestOutcome.passed ↔
      ∀ s ∈ stages, stage_ok t env model s = true := by
    rw [heq]
    cases hff : first_failure t env model with
    | none =>
      have hall := List.find?_eq_none.1 hff
      constructor
      · intro _ s hsmem
        simpa using hall s hsmem
      · intro _
        rfl
    | some s =>
      constructor
      · intro hfalse
        exact TestOutcome.noConfusion hfalse
      · intro hall
        have hbad := List.find?_some hff
        have hmem := List.mem_of_find?_eq_some hff
        rw [hall s hmem] at hbad
        exact Bool.noConfusion hbad
  refine ⟨model, hm, ?_, ?_, hpass, ?_, ?_⟩
  · rw [heq]
  · rw [heq]
  · rw [heq]
    cases hff : first_failure t env model with
    | none =>
      intro _
      rfl
    | some s =>
      intro hfalse
      exact TestOutcome.noConfusion hfalse
  · intro hbad
    obtain ⟨s, hff, hle⟩ := first_failure_before_invoke t env model hbad
    rw [heq, hff]
    refine ⟨fun hfalse => TestOutcome.noConfusion hfalse, ?_, ?_⟩
    · cases s <;> simp [stage_calls, full_calls] at hle ⊢
    · cases s <;> simp [stage_calls, full_calls] at hle ⊢

/-- Instance of the staged run on the mismatch-injection scenario with shapes `[1,2,2,1]`,
`[1]`. -/
theorem test_stops_at_first_failing_stage_witness :
    0 ≤ ComputeSize (PreluTester.SlopeShape ⟨[1, 2, 2, 1], [1], false, false⟩) ∧
    0 ≤ ComputeSize (PreluTester.InputShape ⟨[1, 2, 2, 1], [1], false, false⟩) ∧
    ∃ model,
      CreateTfLiteModel ⟨[1, 2, 2, 1], [1], false, false⟩
        (stub_env 1).fp16_ieee_from_fp32_value (stub_env 1).slope_rng = some model ∧
      StagedRun ⟨[1, 2, 2, 1], [1], false, false⟩ (stub_env 1) model :=
  ⟨by decide, by decide,
    test_stops_at_first_failing_stage ⟨[1, 2, 2, 1], [1], false, false⟩ (stub_env 1)
      (by decide) (by decide)⟩

end xnnpack

end tflite
